import Mathlib

/-!
# Driver acquisition and process-signal handling of the collector

A shallow embedding of `collector/lib/GetKernelObject.cpp` and
`collector/lib/ProcessSignalHandler.cpp`.

Every call that leaves the translated functions (system calls, the gzip
helper, the file downloader, the logger, the formatter, the rate limiter, the
delivery client) is recorded as an event.  A translated function takes the
events that happened before it was called and returns its C++ return value
together with the events it issued itself, in program order.  The outcome of
an external call is read from an environment that may look at everything that
happened earlier, so a statement quantified over the environment covers every
behaviour of the outside world.
-/

namespace collector

/-! ## Data model -/

/-- Modelled from the spec: the header `CollectionMethod.h` is not part of the
sources at hand.  The enumeration has the three collection methods
kernel-module, eBPF-classic and eBPF-CO-RE; the code names `EBPF` and
`CORE_BPF`. -/
inductive CollectionMethod
  | EBPF
  | CORE_BPF
  | KERNEL_MODULE
  deriving DecidableEq, Repr

/-- Modelled from the spec: the class `DriverCandidate` is declared in a header
that is not part of the sources at hand.  It is an immutable descriptor with a
logical name, a directory, a collection method and the flag saying whether it
may be fetched remotely; the fields are named after the getters the code
calls. -/
structure DriverCandidate where
  GetName : String
  GetPath : String
  GetCollectionMethod : CollectionMethod
  IsDownloadable : Bool
  deriving DecidableEq, Repr

/-- Modelled from the spec: the TLS material handed over as a `Json::Value`.
It is either the null value or a record with the three paths the code reads
(`caCertPath`, `clientCertPath`, `clientKeyPath`), each a string. -/
inductive JsonValue
  | null
  | tls (caCertPath clientCertPath clientKeyPath : String)
  deriving DecidableEq, Repr

/-- The test `tls_config.isNull()`. -/
def JsonValue.isNull : JsonValue → Bool
  | .null => true
  | .tls _ _ _ => false

/-- The value of `tls_config["caCertPath"].asCString()`. -/
def JsonValue.caCertPath : JsonValue → String
  | .null => ""
  | .tls ca _ _ => ca

/-- The value of `tls_config["clientCertPath"].asCString()`. -/
def JsonValue.clientCertPath : JsonValue → String
  | .null => ""
  | .tls _ cert _ => cert

/-- The value of `tls_config["clientKeyPath"].asCString()`. -/
def JsonValue.clientKeyPath : JsonValue → String
  | .null => ""
  | .tls _ _ key => key

/-- Severity of a `CLOG` line. -/
inductive LogLevel
  | DEBUG
  | INFO
  | WARNING
  deriving DecidableEq, Repr

/-- An external call together with its arguments. -/
inductive Call
  /-- The system call `stat(path, &sb)`. -/
  | stat (path : String)
  /-- Opening `std::ifstream` on a path. -/
  | ifstream_open (path : String)
  /-- Opening `std::ofstream` on a path. -/
  | ofstream_open (path : String)
  /-- One `stream.read(buffer, 4096)` on the stream opened on a path. -/
  | stream_read (path : String)
  /-- The `std::copy` from the input stream to the output stream. -/
  | copy (src dst : String)
  /-- The helper `GZFileHandle::DecompressFile(src, dst)`. -/
  | DecompressFile (src dst : String)
  /-- The helper `TryUnlink(path)`. -/
  | TryUnlink (path : String)
  /-- The system call `chmod(path, mode)`. -/
  | chmod (path : String) (mode : Nat)
  /-- A `CLOG(level) << msg` line. -/
  | log (level : LogLevel) (msg : String)
  /-- The helper `GetModuleVersion()`, which reads the version manifest. -/
  | GetModuleVersion
  /-- The helper `GetSNIHostname()`. -/
  | GetSNIHostname
  /-- The helper `GetModuleDownloadBaseURL()`. -/
  | GetModuleDownloadBaseURL
  /-- Construction of the `FileDownloader` object. -/
  | FileDownloader
  | IsReady
  | IPResolve_ANY
  | SetRetries (times interval max_time : Nat)
  | SetVerboseMode (verbose : Bool)
  | OutputFile (path : String)
  | SetConnectionTimeout (seconds : Nat)
  | FollowRedirects (follow : Bool)
  | CACert (path : String)
  | Cert (path : String)
  | Key (path : String)
  | SetConnectTo (host target : String)
  | SetURL (url : String)
  | GetEffectiveURL
  | Download
  | ResetCURL
  deriving DecidableEq, Repr

/-- An external call with the outcome it had: for a call that reports success
or failure `ok` is that report (`stat` and `chmod` succeed when they return
0), for a call without a result it is `true`. -/
structure Event where
  call : Call
  ok : Bool
  deriving DecidableEq, Repr

/-- The events of a run, oldest first. -/
abbrev Trace := List Event

/-- What one `stream.read(buffer, 4096)` leaves behind: the stream is still
good, the end of the file was reached (the bytes are the `gcount()` last
ones), or the read failed. -/
inductive ReadOutcome
  | good (bytes : List Nat)
  | eof (bytes : List Nat)
  | bad
  deriving DecidableEq, Repr

/-- An input stream: the path it was opened on and the outcomes of the reads
that will be made on it, in order. -/
structure IStream where
  path : String
  reads : List ReadOutcome
  deriving DecidableEq, Repr

/-- The world outside the translated functions.  `kProbePath` and
`kModulePath` are the constants of `SysdigService`, `append_cid` says whether
the build defines `COLLECTOR_APPEND_CID`; `result` is the outcome of a call
that reports success or failure, given the events so far. -/
structure Env where
  kProbePath : String
  kModulePath : String
  append_cid : Bool
  result : Trace → Call → Bool
  GetModuleVersion : String
  GetSNIHostname : String
  GetModuleDownloadBaseURL : String
  GetEffectiveURL : Trace → String
  StrError : Trace → String
  reads : String → List ReadOutcome
  SHA256 : List Nat → List Nat

/-- A computation that sees the events so far and returns a value with the
events it issued. -/
def Eff (α : Type) : Type := Trace → α × Trace

instance : Monad Eff where
  pure a := fun _ => (a, [])
  bind m f := fun h =>
    let r := m h
    let s := f r.1 (h ++ r.2)
    (s.1, r.2 ++ s.2)

/-- A call that reports success or failure. -/
def invoke (env : Env) (c : Call) : Eff Bool :=
  fun h => (env.result h c, [⟨c, env.result h c⟩])

/-- A call without a result. -/
def emit (c : Call) : Eff Unit :=
  fun _ => ((), [⟨c, true⟩])

/-- A call whose result is a string taken from the environment. -/
def query (c : Call) (answer : Trace → String) : Eff String :=
  fun h => (answer h, [⟨c, true⟩])

/-- The line `CLOG(level) << msg`. -/
def CLOG (level : LogLevel) (msg : String) : Eff Unit :=
  emit (.log level msg)

/-- Every run of `m`, whatever happened before, returns a value and issues
events that together satisfy `Q`. -/
structure Eff.sat {α : Type} (m : Eff α) (Q : α → Trace → Prop) : Prop where
  run : ∀ h, Q (m h).1 (m h).2

/-! ## `std::string` operations used by the code -/

/-- Position of the first `c` in the characters `s`, counted from `i`. -/
def find_from : List Char → Char → Nat → Option Nat
  | [], _, _ => none
  | x :: xs, c, i => if x = c then some i else find_from xs c (i + 1)

/-- The call `s.find(c)`; `none` stands for `std::string::npos`. -/
def str_find (s : String) (c : Char) : Option Nat :=
  find_from s.data c 0

/-- The call `s.substr(pos)`. -/
def str_substr (s : String) (pos : Nat) : String :=
  String.mk (s.data.drop pos)

/-- The test `s.compare(0, len, t) != 0`: the first `len` characters of `s`
differ from `t`. -/
def str_compare_ne (s : String) (len : Nat) (t : String) : Bool :=
  decide (String.mk (s.data.take len) ≠ t)

/-! ## `GetKernelObject.cpp` -/

def kMaxDownloadRetriesTime : Nat := 180

def kMaxDownloadRetriesInterval : Nat := 5

def kNumDownloadRetries : Nat := kMaxDownloadRetriesTime / kMaxDownloadRetriesInterval

def DownloadKernelObjectFromURL (env : Env) (base_url kernel_module module_version : String) :
    Eff Bool := do
  let url0 := base_url ++ "/" ++ module_version ++ "/" ++ kernel_module ++ ".gz"
  let url := if env.append_cid then url0 ++ "?cid=collector" else url0
  if !(← invoke env (.SetURL url)) then
    return false
  let effective ← query .GetEffectiveURL env.GetEffectiveURL
  CLOG .INFO ("Attempting to download kernel object from " ++ effective)
  if !(← invoke env .Download) then
    return false
  CLOG .DEBUG ("Downloaded kernel object from " ++ url)
  return true

def DownloadKernelObjectFromHostname (env : Env) (tls_config : JsonValue)
    (hostname kernel_module module_version : String) : Eff Bool := do
  match str_find hostname ':' with
  | none =>
    CLOG .WARNING "Provided hostname must have a valid port"
    return false
  | some port_offset =>
    let SNI_hostname ← query .GetSNIHostname (fun _ => env.GetSNIHostname)
    if (str_find SNI_hostname ':').isSome then
      CLOG .WARNING "SNI hostname must NOT specify a port"
      return false
    if tls_config.isNull then
      CLOG .WARNING "No TLS configuration provided"
      return false
    if !(← invoke env (.CACert tls_config.caCertPath)) then
      return false
    if !(← invoke env (.Cert tls_config.clientCertPath)) then
      return false
    if !(← invoke env (.Key tls_config.clientKeyPath)) then
      return false
    let differs := str_compare_ne hostname port_offset SNI_hostname
    if differs then
      emit (.SetConnectTo SNI_hostname hostname)
    let server_hostname :=
      if differs then SNI_hostname ++ ":" ++ str_substr hostname (port_offset + 1)
      else hostname
    let base_url := "https://" ++ server_hostname ++ "/kernel-objects"
    if base_url = "" then
      return false
    DownloadKernelObjectFromURL env base_url kernel_module module_version

def DownloadKernelObject (env : Env) (hostname : String) (tls_config : JsonValue)
    (kernel_module compressed_module_path : String) (verbose : Bool) : Eff Bool := do
  emit .FileDownloader
  if !(← invoke env .IsReady) then
    CLOG .WARNING "Failed to initialize FileDownloader object"
    return false
  let module_version ← query .GetModuleVersion (fun _ => env.GetModuleVersion)
  if module_version = "" then
    CLOG .WARNING "/kernel-modules/MODULE_VERSION.txt must exist and not be empty"
    return false
  emit .IPResolve_ANY
  emit (.SetRetries kNumDownloadRetries kMaxDownloadRetriesInterval kMaxDownloadRetriesTime)
  emit (.SetVerboseMode verbose)
  emit (.OutputFile compressed_module_path)
  if !(← invoke env (.SetConnectionTimeout 2)) then
    return false
  if !(← invoke env (.FollowRedirects true)) then
    return false
  if (← DownloadKernelObjectFromHostname env tls_config hostname kernel_module module_version) then
    return true
  let base_url ← query .GetModuleDownloadBaseURL (fun _ => env.GetModuleDownloadBaseURL)
  if base_url = "" then
    return false
  emit .ResetCURL
  emit .IPResolve_ANY
  emit (.SetRetries kNumDownloadRetries kMaxDownloadRetriesInterval kMaxDownloadRetriesTime)
  emit (.SetVerboseMode verbose)
  emit (.OutputFile compressed_module_path)
  if !(← invoke env (.SetConnectionTimeout 2)) then
    return false
  if !(← invoke env (.FollowRedirects true)) then
    return false
  if (← DownloadKernelObjectFromURL env base_url kernel_module module_version) then
    return true
  return false

/-- The digit `n` (below 16) in lower-case hexadecimal. -/
def hex_digit (n : Nat) : Char :=
  if n < 10 then Char.ofNat (48 + n) else Char.ofNat (87 + n)

/-- The output of `sprintf(output, "%02x", byte)` for an `unsigned char`. -/
def hex_byte (byte : Nat) : String :=
  String.mk [hex_digit (byte % 256 / 16), hex_digit (byte % 16)]

/-- The number of bytes of a SHA-256 digest. -/
def SHA256_DIGEST_LENGTH : Nat := 32

/-- The loop `while (stream)` of `Sha256HashStream`: `ctx` holds the bytes
given to `SHA256_Update` so far; the result is `none` when a read failed. -/
def Sha256HashStream_loop (path : String) : List ReadOutcome → List Nat → Eff (Option (List Nat))
  | [], ctx => pure (some ctx)
  | .good bytes :: rest, ctx => do
    emit (.stream_read path)
    Sha256HashStream_loop path rest (ctx ++ bytes)
  | .eof bytes :: _, ctx => do
    emit (.stream_read path)
    pure (some (ctx ++ bytes))
  | .bad :: _, _ => do
    let _ ← (fun _ => (false, [⟨.stream_read path, false⟩]) : Eff Bool)
    CLOG .WARNING "Failed to read stream during hash operation"
    pure none

def Sha256HashStream (env : Env) (stream : IStream) : Eff String := do
  let sha256 ← Sha256HashStream_loop stream.path stream.reads []
  return match sha256 with
    | none => ""
    | some ctx =>
      let hash := env.SHA256 ctx
      let output := (List.range SHA256_DIGEST_LENGTH).map (fun i => hex_byte (hash.getD i 0))
      String.join output

def Sha256HashFile (env : Env) (driver : String) : Eff String := do
  if !(← invoke env (.ifstream_open driver)) then
    CLOG .WARNING ("Failed to open \"" ++ driver ++ "\"")
    return ""
  Sha256HashStream env ⟨driver, env.reads driver⟩

def GetKernelObject (env : Env) (hostname : String) (tls_config : JsonValue)
    (candidate : DriverCandidate) (verbose : Bool) : Eff Bool := do
  if candidate.GetCollectionMethod = CollectionMethod.CORE_BPF then
    return true
  let expected_path := candidate.GetPath ++ "/" ++ candidate.GetName
  let expected_path_compressed := expected_path ++ ".gz"
  let module_path :=
    if candidate.GetCollectionMethod = CollectionMethod.EBPF then env.kProbePath
    else env.kModulePath
  CLOG .DEBUG ("Checking for existence of " ++ expected_path_compressed ++ " and " ++ expected_path)
  let found_compressed ← invoke env (.stat expected_path_compressed)
  if found_compressed then
    let digest ← Sha256HashFile env expected_path_compressed
    CLOG .INFO ("Found existing compressed kernel object with sha256 hash: " ++ digest ++ ".")
    if !(← invoke env (.DecompressFile expected_path_compressed module_path)) then
      CLOG .WARNING ("Failed to decompress " ++ expected_path_compressed)
      return false
  else
    let found_raw ← invoke env (.stat expected_path)
    if found_raw then
      CLOG .DEBUG ("Found existing kernel object " ++ expected_path)
      if !(← invoke env (.ifstream_open expected_path)) then
        let reason ← (fun h => (env.StrError h, []) : Eff String)
        CLOG .WARNING ("Failed to open " ++ expected_path ++ " - " ++ reason)
        return false
      if !(← invoke env (.ofstream_open module_path)) then
        let reason ← (fun h => (env.StrError h, []) : Eff String)
        CLOG .WARNING ("Failed to open " ++ module_path ++ " - " ++ reason)
        return false
      emit (.copy expected_path module_path)
    else if candidate.IsDownloadable then
      CLOG .INFO ("Attempting to download " ++ candidate.GetName)
      let downloadPath := module_path ++ ".gz"
      if !(← DownloadKernelObject env hostname tls_config candidate.GetName downloadPath verbose) then
        CLOG .WARNING ("Unable to download kernel object " ++ candidate.GetName ++ " to " ++ downloadPath)
        return false
      let digest ← Sha256HashFile env downloadPath
      CLOG .INFO ("Downloaded driver with sha256 hash: " ++ digest)
      if !(← invoke env (.DecompressFile downloadPath module_path)) then
        CLOG .WARNING "Failed to decompress downloaded kernel object"
        emit (.TryUnlink downloadPath)
        return false
      CLOG .INFO ("Successfully downloaded and decompressed " ++ module_path)
    else
      CLOG .WARNING ("Local storage does not contain " ++ candidate.GetName ++ " and the candidate is not downloadable.")
      return false
  if !(← invoke env (.chmod module_path 0o444)) then
    let reason ← (fun h => (env.StrError h, []) : Eff String)
    CLOG .WARNING ("Failed to set file permissions for " ++ module_path ++ " - " ++ reason)
    return false
  return true

/-! ## Reading a trace -/

/-- The path a call may write to, delete or change the mode of, if it has
one (`OutputFile` names the file the next `Download` writes). -/
def Call.target : Call → Option String
  | .ofstream_open path => some path
  | .copy _ dst => some dst
  | .DecompressFile _ dst => some dst
  | .TryUnlink path => some path
  | .chmod path _ => some path
  | .OutputFile path => some path
  | _ => none

/-- The calls made on, or to construct, the `FileDownloader` object. -/
def Call.isDownloader : Call → Bool
  | .FileDownloader | .IsReady | .IPResolve_ANY | .SetRetries _ _ _ | .SetVerboseMode _
  | .OutputFile _ | .SetConnectionTimeout _ | .FollowRedirects _ | .CACert _ | .Cert _
  | .Key _ | .SetConnectTo _ _ | .SetURL _ | .GetEffectiveURL | .Download | .ResetCURL => true
  | _ => false

/-- The calls `DownloadKernelObject` may issue: calls on the downloader, log
lines, and the three helpers that read the configuration. -/
def Call.inDownload : Call → Bool
  | .log _ _ | .GetModuleVersion | .GetSNIHostname | .GetModuleDownloadBaseURL => true
  | c => c.isDownloader

/-- The calls that attempt a fetch: setting the request URL and downloading. -/
def Call.isFetch : Call → Bool
  | .SetURL _ | .Download => true
  | _ => false

/-- The files on disk, as far as the code can tell them apart: the mode of
every path that holds a file, and the output file the downloader was given. -/
structure World where
  mode : String → Option Nat
  output : Option String

/-- The world with the file at `path` replaced by `file` (`none` removes it). -/
def World.set (w : World) (path : String) (file : Option Nat) : World :=
  { w with mode := fun p => if p = path then file else w.mode p }

/-- The world with a file at `path`: an existing file keeps its mode, a new
one gets mode 0644. -/
def World.create (w : World) (path : String) : World :=
  w.set path (some ((w.mode path).getD 0o644))

/-- Modelled from the spec: the helper `TryUnlink` is not part of the sources
at hand.  It deletes the file at `path` ("delete the downloaded compressed
file"). -/
def TryUnlink_effect (w : World) (path : String) : World :=
  w.set path none

/-- Modelled from the spec: the helper `GZFileHandle::DecompressFile` is not
part of the sources at hand.  When it succeeds it leaves the decompressed file
at `dst` ("decompress it directly into the active install path"); when it
fails the files are as they were. -/
def DecompressFile_effect (w : World) (dst : String) (ok : Bool) : World :=
  if ok then w.create dst else w

/-- The world after one event.  A successful `chmod` sets the mode; a
successful open for writing or download leaves a file at its destination; a
failed call leaves the files as they were. -/
def World.step (w : World) (e : Event) : World :=
  match e.call with
  | .TryUnlink path => TryUnlink_effect w path
  | .chmod path mode => if e.ok then w.set path (some mode) else w
  | .ofstream_open path => if e.ok then w.create path else w
  | .DecompressFile _ dst => DecompressFile_effect w dst e.ok
  | .OutputFile path => { w with output := some path }
  | .Download =>
    match e.ok, w.output with
    | true, some path => w.create path
    | _, _ => w
  | _ => w

/-- The world after the events of a trace. -/
def World.after (w : World) (t : Trace) : World :=
  t.foldl World.step w

/-- The local artifact `<path>/<name>` of a candidate. -/
def expected_path (candidate : DriverCandidate) : String :=
  candidate.GetPath ++ "/" ++ candidate.GetName

/-- The local compressed artifact `<path>/<name>.gz` of a candidate. -/
def expected_path_compressed (candidate : DriverCandidate) : String :=
  expected_path candidate ++ ".gz"

/-- The active install path of a candidate: `kProbePath` for `EBPF`,
`kModulePath` otherwise. -/
def module_path (env : Env) (candidate : DriverCandidate) : String :=
  if candidate.GetCollectionMethod = CollectionMethod.EBPF then env.kProbePath
  else env.kModulePath

/-- The request URL of the public mirror:
`<GetModuleDownloadBaseURL()>/<module_version>/<kernel_module>.gz`, followed by
`?cid=collector` in the build that defines `COLLECTOR_APPEND_CID`. -/
def mirror_url (env : Env) (kernel_module : String) : String :=
  env.GetModuleDownloadBaseURL ++ "/" ++ env.GetModuleVersion ++ "/" ++ kernel_module ++ ".gz"
    ++ (if env.append_cid then "?cid=collector" else "")

/-! ## `ProcessSignalHandler.cpp` -/

/-- Modelled from the spec: the enumeration `SignalHandler::Result` is declared
in a header that is not part of the sources at hand; the delivery outcome is
one of PROCESSED, IGNORED and ERROR. -/
inductive Result
  | PROCESSED
  | IGNORED
  | ERROR
  deriving DecidableEq, Repr

/-- The fields of `v1::ProcessSignal` that the code reads. -/
structure ProcessSignal where
  container_id : String
  name : String
  args : String
  exec_file_path : String
  deriving DecidableEq, Repr

/-- The message returned by the formatter; `process_signal` stands for
`signal().process_signal()`. -/
structure SignalStreamMessage where
  process_signal : ProcessSignal
  deriving DecidableEq, Repr

/-- The opaque event handle `sinsp_evt*`. -/
structure sinsp_evt where
  handle : Nat
  deriving DecidableEq, Repr

/-- The counters of `stats_` that the handler increments.  The class of
`stats_` is not part of the sources at hand; the counters are unbounded
here. -/
structure CollectorStats where
  nProcessResolutionFailures : Nat
  nProcessRateLimitCount : Nat
  nProcessSent : Nat
  nProcessSendFailures : Nat
  deriving DecidableEq, Repr

/-- A call the handler makes on one of its collaborators. -/
inductive SignalCall
  | ToProtoMessage (evt : sinsp_evt)
  | Allow (key : String)
  | PushSignals (msg : SignalStreamMessage)
  deriving DecidableEq, Repr

/-- The collaborators of the handler: the formatter, the rate limiter and the
delivery client.  Each answer may depend on the calls made so far. -/
structure SignalEnv where
  ToProtoMessage : List SignalCall → sinsp_evt → Option SignalStreamMessage
  Allow : List SignalCall → String → Bool
  PushSignals : List SignalCall → SignalStreamMessage → Result

/-- The state a handler call works on: the counters and the calls made on the
collaborators so far, oldest first. -/
structure HandlerState where
  stats : CollectorStats
  calls : List SignalCall
  deriving DecidableEq, Repr

def compute_process_key (s : ProcessSignal) : String :=
  s.container_id ++ " " ++ s.name ++ " " ++ s.args ++ " " ++ s.exec_file_path

def HandleSignal (env : SignalEnv) (evt : sinsp_evt) (s : HandlerState) : Result × HandlerState :=
  let calls1 := s.calls ++ [SignalCall.ToProtoMessage evt]
  match env.ToProtoMessage s.calls evt with
  | none =>
    (Result.IGNORED,
      { stats := { s.stats with nProcessResolutionFailures := s.stats.nProcessResolutionFailures + 1 },
        calls := calls1 })
  | some signal_msg =>
    let key := compute_process_key signal_msg.process_signal
    let calls2 := calls1 ++ [SignalCall.Allow key]
    if !(env.Allow calls1 key) then
      (Result.IGNORED,
        { stats := { s.stats with nProcessRateLimitCount := s.stats.nProcessRateLimitCount + 1 },
          calls := calls2 })
    else
      let result := env.PushSignals calls2 signal_msg
      let calls3 := calls2 ++ [SignalCall.PushSignals signal_msg]
      if result = Result.PROCESSED then
        (result, { stats := { s.stats with nProcessSent := s.stats.nProcessSent + 1 }, calls := calls3 })
      else if result = Result.ERROR then
        (result,
          { stats := { s.stats with nProcessSendFailures := s.stats.nProcessSendFailures + 1 },
            calls := calls3 })
      else
        (result, { stats := s.stats, calls := calls3 })

/-! ## Concrete inputs -/

/-- An environment whose calls answer as `result` says whatever happened
before, with the version manifest holding `version`. -/
def sample_env (result : Call → Bool) (version : String) : Env :=
  { kProbePath := "/module/collector-ebpf.o"
    kModulePath := "/module/collector.ko"
    append_cid := false
    result := fun _ c => result c
    GetModuleVersion := version
    GetSNIHostname := "sensor.stackrox"
    GetModuleDownloadBaseURL := "https://mirror.example/modules"
    GetEffectiveURL := fun _ => "url"
    StrError := fun _ => "error"
    reads := fun _ => [ReadOutcome.eof [1, 2, 3]]
    SHA256 := fun bytes => bytes }

/-- A candidate named `collector-ebpf-5.4.0.o` in `/kernel-modules`. -/
def sample_candidate (method : CollectionMethod) (downloadable : Bool) : DriverCandidate :=
  { GetName := "collector-ebpf-5.4.0.o"
    GetPath := "/kernel-modules"
    GetCollectionMethod := method
    IsDownloadable := downloadable }

/-- A world that holds the files listed, each with its mode. -/
def sample_world (files : List (String × Nat)) : World :=
  { mode := fun p => (files.lookup p)
    output := none }

/-- Every call succeeds. -/
def all_succeed : Call → Bool :=
  fun _ => true

/-- Every call succeeds except the decompression. -/
def decompress_fails : Call → Bool
  | .DecompressFile _ _ => false
  | _ => true

/-- No local artifact is found and the decompression fails; every other call
succeeds. -/
def download_then_decompress_fails : Call → Bool
  | .stat _ => false
  | .DecompressFile _ _ => false
  | _ => true

/-- No local artifact is found; every other call succeeds. -/
def nothing_local : Call → Bool
  | .stat _ => false
  | _ => true

/-- A process signal of a shell started in a container. -/
def sample_message : SignalStreamMessage :=
  { process_signal :=
      { container_id := "c0ffee", name := "sh", args := "-c ls", exec_file_path := "/bin/sh" } }

/-- Collaborators that answer the same whatever was called before: the
formatter returns `formatted`, the rate limiter `allow`, the client `push`. -/
def sample_signal_env (formatted : Option SignalStreamMessage) (allow : Bool) (push : Result) :
    SignalEnv :=
  { ToProtoMessage := fun _ _ => formatted
    Allow := fun _ _ => allow
    PushSignals := fun _ _ => push }

/-- A handler that has counted nothing and called nothing yet. -/
def sample_state : HandlerState :=
  { stats :=
      { nProcessResolutionFailures := 0
        nProcessRateLimitCount := 0
        nProcessSent := 0
        nProcessSendFailures := 0 }
    calls := [] }

/-! ## The signal key -/

/-- No space character in the container id, the name and the arguments of a
process signal (the executable path is free). -/
def space_free (s : ProcessSignal) : Prop :=
  ' ' ∉ s.container_id.data ∧ ' ' ∉ s.name.data ∧ ' ' ∉ s.args.data

instance (s : ProcessSignal) : Decidable (space_free s) := by
  unfold space_free
  infer_instance

/-! ## The Mesos socket collector -/

/-- Modelled type: `socket_map_t` is declared in `mesos_collector.h`, which is
not part of the sources at hand.  It is a `std::map` from socket descriptor to
handler; the embedding keeps its entries as a list in ascending key order (the
iteration order of the map) and identifies a shared handler by a number, so
that `==` on handlers is equality of numbers. -/
abbrev socket_map_t := List (Int × Nat)

/-- The assignment `m[key] = handler` of a `std::map`: replaces the entry of an
existing key, inserts in key order otherwise. -/
def map_assign : socket_map_t → Int → Nat → socket_map_t
  | [], key, handler => [(key, handler)]
  | (k, v) :: rest, key, handler =>
    if key < k then (key, handler) :: (k, v) :: rest
    else if key = k then (key, handler) :: rest
    else (k, v) :: map_assign rest key handler

/-- The macro `FD_SET` on a descriptor set kept as a list. -/
def FD_SET (fd : Int) (set : List Int) : List Int :=
  if fd ∈ set then set else fd :: set

structure mesos_collector where
  m_sockets : socket_map_t
  m_nfds : Int
  m_loop : Bool
  m_timeout_ms : Int
  m_stopped : Bool
  m_errfd : List Int
  m_infd : List Int
  deriving DecidableEq, Repr

def mesos_collector.clear (self : mesos_collector) : mesos_collector :=
  { self with m_errfd := [], m_infd := [] }

/-- The constructor `mesos_collector::mesos_collector` (a declaration of that
name would hide the structure inside its own namespace). -/
def mesos_collector.construct (do_loop : Bool) (timeout_ms : Int) : mesos_collector :=
  mesos_collector.clear
    { m_sockets := [], m_nfds := 0, m_loop := do_loop, m_timeout_ms := timeout_ms,
      m_stopped := false, m_errfd := [], m_infd := [] }

/-- The method `add`; `sockfd` is the value of `handler->get_socket(m_timeout_ms)`. -/
def mesos_collector.add (self : mesos_collector) (handler : Nat) (sockfd : Int) :
    mesos_collector :=
  let self := { self with m_errfd := FD_SET sockfd self.m_errfd }
  let self := { self with m_infd := FD_SET sockfd self.m_infd }
  let self := if sockfd > self.m_nfds then { self with m_nfds := sockfd } else self
  { self with m_sockets := map_assign self.m_sockets sockfd handler }

/-- The overload `remove(socket_map_t::iterator&)`.  An iterator is a position in
the map; every position from the number of entries on is `end()`.  The result
carries the iterator returned: after `erase(it++)` it designates the entry that
followed the erased one, which now sits at the same position. -/
def mesos_collector.remove_iterator (self : mesos_collector) (it : Nat) :
    mesos_collector × Nat :=
  let self :=
    if it < self.m_sockets.length then { self with m_sockets := self.m_sockets.eraseIdx it }
    else self
  let self := { self with m_nfds := 0 }
  let self := self.m_sockets.foldl
    (fun (self : mesos_collector) sock =>
      if sock.1 > self.m_nfds then { self with m_nfds := sock.1 } else self) self
  (self, it)

/-- The loop of `remove(std::shared_ptr<mesos_http>)` from position `it` on, over
the entries `rest` that are left to visit. -/
def mesos_collector.remove_loop (self : mesos_collector) (handler : Nat) :
    socket_map_t → Nat → mesos_collector × Bool
  | [], _ => (self, false)
  | (_, second) :: rest, it =>
    if second = handler then ((self.remove_iterator it).1, true)
    else mesos_collector.remove_loop self handler rest (it + 1)

/-- The overload `remove(std::shared_ptr<mesos_http>)`. -/
def mesos_collector.remove (self : mesos_collector) (handler : Nat) :
    mesos_collector × Bool :=
  self.remove_loop handler self.m_sockets 0

def mesos_collector.remove_all (self : mesos_collector) : mesos_collector :=
  let self := self.clear
  let self := { self with m_sockets := [] }
  { self with m_nfds := 0 }

/-- The first argument of the call of `select` in `get_data`. -/
def mesos_collector.select_nfds (self : mesos_collector) : Int :=
  self.m_nfds + 1

/-- One call of a method that changes the registered sockets. -/
inductive CollectorOp where
  | add (handler : Nat) (sockfd : Int)
  | remove (handler : Nat)
  | remove_iterator (it : Nat)
  | remove_all
  deriving DecidableEq, Repr

def CollectorOp.apply (self : mesos_collector) : CollectorOp → mesos_collector
  | .add handler sockfd => self.add handler sockfd
  | .remove handler => (self.remove handler).1
  | .remove_iterator it => (self.remove_iterator it).1
  | .remove_all => self.remove_all

/-- The collector after construction and a sequence of calls. -/
def mesos_collector.after (do_loop : Bool) (timeout_ms : Int) (ops : List CollectorOp) :
    mesos_collector :=
  ops.foldl CollectorOp.apply (mesos_collector.construct do_loop timeout_ms)

/-- The relation of `m_nfds` to the registered descriptors: it bounds them all,
is zero or one of them, and is not negative. -/
def mesos_collector.nfds_is_largest (self : mesos_collector) : Prop :=
  (∀ sock ∈ self.m_sockets, sock.1 ≤ self.m_nfds) ∧
    (self.m_nfds = 0 ∨ ∃ sock ∈ self.m_sockets, sock.1 = self.m_nfds) ∧ 0 ≤ self.m_nfds

/-! ## The request to the configured host -/

/-- The URL a call sets on the downloader, if it is a `SetURL`. -/
def Call.request_url : Call → Option String
  | .SetURL url => some url
  | _ => none

/-- Whether a call sets a connect-to override. -/
def Call.isConnectTo : Call → Bool
  | .SetConnectTo _ _ => true
  | _ => false

/-- The request URL for a server name:
`https://<server>/kernel-objects/<module_version>/<kernel_module>.gz`, followed by
`?cid=collector` in the build that defines `COLLECTOR_APPEND_CID`. -/
def server_url (env : Env) (server kernel_module module_version : String) : String :=
  "https://" ++ server ++ "/kernel-objects/" ++ module_version ++ "/" ++ kernel_module ++ ".gz"
    ++ (if env.append_cid then "?cid=collector" else "")

/-! ## Two runs that differ in the digest -/

/-- The calls left out when two runs are compared: log lines, the reads made
to hash a file, and the opening of an input stream on any path but
`<path>/<name>` of the candidate.  `GetKernelObject` opens an input stream
itself only on `<path>/<name>`, to copy it; its other openings are made by
`Sha256HashFile`. -/
def diagnostic (candidate : DriverCandidate) : Call → Bool
  | .log _ _ => true
  | .stream_read _ => true
  | .ifstream_open path => decide (path ≠ expected_path candidate)
  | _ => false

/-- The events of a trace that are not diagnostic, in order. -/
def operations (candidate : DriverCandidate) (t : Trace) : Trace :=
  t.filter (fun e => !diagnostic candidate e.call)

/-- Two computations agree when, started after histories with the same
operations, they return the same value and issue the same operations. -/
structure Eff.agree {α : Type} (candidate : DriverCandidate) (m₁ m₂ : Eff α) : Prop where
  run : ∀ h₁ h₂, operations candidate h₁ = operations candidate h₂ →
    (m₁ h₁).1 = (m₂ h₂).1 ∧
      operations candidate (m₁ h₁).2 = operations candidate (m₂ h₂).2

/-- The outcomes of the calls in a second environment follow those of the first:
a call that is not diagnostic has the same outcome in both whenever the
histories hold the same operations. -/
def Env.same_outcomes (candidate : DriverCandidate) (env₁ env₂ : Env) : Prop :=
  ∀ t₁ t₂ c, operations candidate t₁ = operations candidate t₂ →
    diagnostic candidate c = false → env₁.result t₁ c = env₂.result t₂ c

/-- The settings read by `GetKernelObject` are the same in two environments. -/
def Env.same_settings (env₁ env₂ : Env) : Prop :=
  env₁.kProbePath = env₂.kProbePath ∧ env₁.kModulePath = env₂.kModulePath ∧
    env₁.append_cid = env₂.append_cid ∧ env₁.GetModuleVersion = env₂.GetModuleVersion ∧
    env₁.GetSNIHostname = env₂.GetSNIHostname ∧
    env₁.GetModuleDownloadBaseURL = env₂.GetModuleDownloadBaseURL

/-- Every call succeeds, except that no input stream can be opened on a path
other than `/kernel-modules/collector-ebpf-5.4.0.o`. -/
def hashing_fails : Call → Bool
  | .ifstream_open path => decide (path = "/kernel-modules/collector-ebpf-5.4.0.o")
  | _ => true

/-- The sample environment in which no file can be hashed: the streams cannot
be opened, and a read on them would fail. -/
def unreadable_env (version : String) : Env :=
  { sample_env hashing_fails version with
    reads := fun _ => [ReadOutcome.bad]
    SHA256 := fun _ => [] }

/-! # Theorems -/

/-! ## Running a computation -/

theorem Eff_pure {α : Type} (a : α) (h : Trace) : (pure a : Eff α) h = (a, []) := rfl

theorem Eff_bind {α β : Type} (m : Eff α) (f : α → Eff β) (h : Trace) :
    (m >>= f) h = ((f (m h).1 (h ++ (m h).2)).1, (m h).2 ++ (f (m h).1 (h ++ (m h).2)).2) := rfl

theorem Eff_ite {α : Type} (c : Prop) [Decidable c] (m₁ m₂ : Eff α) (h : Trace) :
    (if c then m₁ else m₂) h = if c then m₁ h else m₂ h := by
  split <;> rfl

/-! ## The events of the hash computation -/

theorem hash_loop_events (path : String) (reads : List ReadOutcome) :
    ∀ (ctx : List Nat) (h : Trace), ∀ e ∈ (Sha256HashStream_loop path reads ctx h).2,
      e.call = Call.stream_read path ∨
        e.call = Call.log LogLevel.WARNING "Failed to read stream during hash operation" := by
  induction reads with
  | nil => intro ctx h e he; simp [Sha256HashStream_loop, Eff_pure] at he
  | cons r rest ih =>
    intro ctx h e he
    cases r with
    | good bytes =>
      simp only [Sha256HashStream_loop, Eff_bind, emit, List.mem_append, List.mem_singleton] at he
      rcases he with he | he
      · left; simp [he]
      · exact ih _ _ e he
    | eof bytes =>
      simp [Sha256HashStream_loop, Eff_bind, Eff_pure, emit] at he
      left; simp [he]
    | bad =>
      simp [Sha256HashStream_loop, Eff_bind, Eff_pure, emit, CLOG] at he
      rcases he with he | he <;> simp [he]

theorem hash_file_events (env : Env) (driver : String) (h : Trace) :
    ∀ e ∈ (Sha256HashFile env driver h).2,
      e.call = Call.ifstream_open driver ∨ e.call = Call.stream_read driver ∨
        ∃ msg, e.call = Call.log LogLevel.WARNING msg := by
  have hl := hash_loop_events driver (env.reads driver) []
  simp only [Sha256HashFile, Sha256HashStream, Eff_bind, Eff_pure, Eff_ite, invoke, emit, CLOG,
    apply_ite Prod.fst, apply_ite Prod.snd, List.append_nil, List.nil_append,
    Bool.not_eq_true', List.forall_mem_append, List.forall_mem_cons]
  split_ifs
  · simp
  · refine ⟨by simp, ?_⟩
    intro e he
    rcases hl _ e he with h1 | h1
    · right; left; exact h1
    · right; right; exact ⟨_, h1⟩

theorem hash_file_not_downloader (env : Env) (driver : String) (h : Trace) :
    ∀ e ∈ (Sha256HashFile env driver h).2, e.call.isDownloader = false := by
  intro e he
  rcases hash_file_events env driver h e he with h1 | h1 | ⟨msg, h1⟩ <;>
    simp [h1, Call.isDownloader]

/-! ## The world after a trace -/

theorem after_nil (w : World) : w.after [] = w := rfl

theorem after_cons (w : World) (e : Event) (t : Trace) :
    w.after (e :: t) = (w.step e).after t := rfl

theorem after_append (w : World) (t₁ t₂ : Trace) :
    w.after (t₁ ++ t₂) = (w.after t₁).after t₂ := by
  simp [World.after, List.foldl_append]

theorem after_inert (t : Trace) (ht : ∀ e ∈ t, ∀ w : World, w.step e = w) (w : World) :
    w.after t = w := by
  induction t with
  | nil => rfl
  | cons e t ih =>
    rw [after_cons, ht e (List.mem_cons_self e t) w]
    exact ih (fun e he => ht e (List.mem_cons_of_mem _ he))

/-! ## Driver acquisition -/

/-- Claim C1.  For every hostname, TLS configuration, verbose flag and history,
and every candidate whose collection method is `CORE_BPF`, `GetKernelObject`
returns `true` and issues no event at all: no file-system call, no downloader
call, not even a log line. -/
theorem GetKernelObject_core_bpf (env : Env) (hostname : String) (tls_config : JsonValue)
    (candidate : DriverCandidate) (verbose : Bool) (h : Trace)
    (hcore : candidate.GetCollectionMethod = CollectionMethod.CORE_BPF) :
    GetKernelObject env hostname tls_config candidate verbose h = (true, []) := by
  simp [GetKernelObject, hcore, Eff_pure]

theorem GetKernelObject_core_bpf_witness :
    (sample_candidate CollectionMethod.CORE_BPF true).GetCollectionMethod
        = CollectionMethod.CORE_BPF ∧
      GetKernelObject (sample_env nothing_local "2.3.0") "sensor.stackrox:443"
        (JsonValue.tls "ca.pem" "cert.pem" "key.pem")
        (sample_candidate CollectionMethod.CORE_BPF true) false [] = (true, []) :=
  ⟨rfl, GetKernelObject_core_bpf _ _ _ _ _ _ rfl⟩

/-- Claim C2.  For a candidate that is not CO-RE, when the `stat` of the local
compressed artifact `<path>/<name>.gz` succeeds, no event of `GetKernelObject`
is a call on the downloader: the `FileDownloader` is not constructed, no URL
is set and no `Download` is issued, whether or not the decompression succeeds
and whether or not the candidate is downloadable. -/
theorem GetKernelObject_local_compressed_no_download (env : Env) (hostname : String)
    (tls_config : JsonValue) (candidate : DriverCandidate) (verbose : Bool) (h : Trace)
    (hcore : candidate.GetCollectionMethod ≠ CollectionMethod.CORE_BPF)
    (hstat : ∀ t, env.result t (Call.stat (expected_path_compressed candidate)) = true) :
    ∀ e ∈ (GetKernelObject env hostname tls_config candidate verbose h).2,
      e.call.isDownloader = false := by
  simp only [expected_path_compressed, expected_path] at hstat
  have hh := hash_file_not_downloader env
  simp only [GetKernelObject, hcore, Eff_pure, Eff_bind, Eff_ite, invoke, emit, CLOG, hstat,
    if_true, if_false, apply_ite Prod.fst, apply_ite Prod.snd, List.append_nil, List.nil_append,
    Bool.not_eq_true', List.forall_mem_append, List.forall_mem_cons]
  split_ifs <;>
    simp [Call.isDownloader] <;>
    exact hh _ _

theorem GetKernelObject_local_compressed_no_download_witness :
    (GetKernelObject (sample_env decompress_fails "2.3.0") "sensor.stackrox:443"
        (JsonValue.tls "ca.pem" "cert.pem" "key.pem")
        (sample_candidate CollectionMethod.EBPF true) false []).2.all
      (fun e => !e.call.isDownloader) = true :=
  List.all_eq_true.mpr (fun e he => by
    rw [GetKernelObject_local_compressed_no_download (sample_env decompress_fails "2.3.0")
      "sensor.stackrox:443" (JsonValue.tls "ca.pem" "cert.pem" "key.pem")
      (sample_candidate CollectionMethod.EBPF true) false [] (by decide) (fun _ => rfl) e he]
    rfl)

/-- Claim C3.  For a candidate that is not CO-RE whose local compressed artifact
`<path>/<name>.gz` is found, if decompressing it into the active install path
fails then `GetKernelObject` returns `false`; the only event with a target (a
path written, deleted or re-moded) is that failed `DecompressFile`, whose
target is the install path, so no `TryUnlink` is issued; and in every world
that holds the compressed artifact it is still there after the call. -/
theorem GetKernelObject_local_decompress_failure (env : Env) (hostname : String)
    (tls_config : JsonValue) (candidate : DriverCandidate) (verbose : Bool) (h : Trace)
    (hcore : candidate.GetCollectionMethod ≠ CollectionMethod.CORE_BPF)
    (hstat : ∀ t, env.result t (Call.stat (expected_path_compressed candidate)) = true)
    (hdec : ∀ t, env.result t
      (Call.DecompressFile (expected_path_compressed candidate) (module_path env candidate))
        = false) :
    (GetKernelObject env hostname tls_config candidate verbose h).1 = false ∧
      (∀ e ∈ (GetKernelObject env hostname tls_config candidate verbose h).2,
        e.call.target = none ∨
          e = ⟨Call.DecompressFile (expected_path_compressed candidate)
            (module_path env candidate), false⟩) ∧
      (∀ e ∈ (GetKernelObject env hostname tls_config candidate verbose h).2,
        ∀ path, e.call ≠ Call.TryUnlink path) ∧
      ∀ w : World, w.mode (expected_path_compressed candidate) ≠ none →
        (w.after (GetKernelObject env hostname tls_config candidate verbose h).2).mode
          (expected_path_compressed candidate) ≠ none := by
  obtain ⟨t, digest, ht, hrun⟩ : ∃ (t : Trace) (digest : String),
      (∀ e ∈ t, e.call = Call.ifstream_open (expected_path_compressed candidate) ∨
        e.call = Call.stream_read (expected_path_compressed candidate) ∨
        ∃ msg, e.call = Call.log LogLevel.WARNING msg) ∧
      GetKernelObject env hostname tls_config candidate verbose h = (false,
        ⟨Call.log LogLevel.DEBUG ("Checking for existence of "
            ++ expected_path_compressed candidate ++ " and " ++ expected_path candidate), true⟩ ::
        ⟨Call.stat (expected_path_compressed candidate), true⟩ ::
        (t ++ [⟨Call.log LogLevel.INFO
            ("Found existing compressed kernel object with sha256 hash: " ++ digest ++ "."), true⟩,
          ⟨Call.DecompressFile (expected_path_compressed candidate) (module_path env candidate),
            false⟩,
          ⟨Call.log LogLevel.WARNING
            ("Failed to decompress " ++ expected_path_compressed candidate), true⟩])) := by
    simp only [expected_path_compressed, expected_path, module_path] at hstat hdec ⊢
    exact ⟨_, _, hash_file_events env _ _, by
      simp only [GetKernelObject, hcore, Eff_pure, Eff_bind, Eff_ite, invoke, emit, CLOG, hstat,
        hdec, if_true, if_false, List.append_nil, List.nil_append, List.cons_append,
        Bool.not_true, Bool.not_false, Bool.false_eq_true]
      rfl⟩
  rw [hrun]
  refine ⟨rfl, ?_, ?_, ?_⟩
  · intro e he
    simp only [List.mem_cons, List.mem_append, List.mem_singleton, List.not_mem_nil,
      or_false] at he
    rcases he with he | he | he | he | he | he
    · left; simp [he, Call.target]
    · left; simp [he, Call.target]
    · left
      rcases ht e he with h1 | h1 | ⟨msg, h1⟩ <;> simp [h1, Call.target]
    · left; simp [he, Call.target]
    · right; exact he
    · left; simp [he, Call.target]
  · intro e he path hp
    simp only [List.mem_cons, List.mem_append, List.mem_singleton, List.not_mem_nil,
      or_false] at he
    rcases he with he | he | he | he | he | he
    · simp [he] at hp
    · simp [he] at hp
    · rcases ht e he with h1 | h1 | ⟨msg, h1⟩ <;> simp [h1] at hp
    · simp [he] at hp
    · simp [he] at hp
    · simp [he] at hp
  · intro w hw
    have hinert : w.after t = w := by
      refine after_inert t ?_ w
      intro e he w
      rcases ht e he with h1 | h1 | ⟨msg, h1⟩ <;> simp [h1, World.step]
    simpa [after_append, after_cons, after_nil, World.step, DecompressFile_effect, hinert]
      using hw

theorem GetKernelObject_local_decompress_failure_witness :
    (GetKernelObject (sample_env decompress_fails "2.3.0") "sensor.stackrox:443"
        JsonValue.null (sample_candidate CollectionMethod.KERNEL_MODULE true) false []).1 = false ∧
      ((sample_world [("/kernel-modules/collector-ebpf-5.4.0.o.gz", 0o444)]).after
        (GetKernelObject (sample_env decompress_fails "2.3.0") "sensor.stackrox:443"
          JsonValue.null (sample_candidate CollectionMethod.KERNEL_MODULE true) false []).2).mode
        "/kernel-modules/collector-ebpf-5.4.0.o.gz" ≠ none :=
  have key := GetKernelObject_local_decompress_failure (sample_env decompress_fails "2.3.0")
    "sensor.stackrox:443" JsonValue.null (sample_candidate CollectionMethod.KERNEL_MODULE true)
    false [] (by decide) (fun _ => rfl) (fun _ => rfl)
  ⟨key.1, key.2.2.2 (sample_world [("/kernel-modules/collector-ebpf-5.4.0.o.gz", 0o444)])
    (by decide)⟩

/-! ## Stepping through a computation -/

theorem sat_pure {α : Type} (a : α) (Q : α → Trace → Prop) (hq : Q a []) :
    (pure a : Eff α).sat Q := ⟨fun _ => hq⟩

theorem sat_bind {α β : Type} (m : Eff α) (f : α → Eff β) (Q : β → Trace → Prop)
    (hm : m.sat (fun a t => (f a).sat (fun b u => Q b (t ++ u)))) : (m >>= f).sat Q :=
  ⟨fun h => (hm.run h).run (h ++ (m h).2)⟩

theorem sat_ite {α : Type} (c : Prop) [Decidable c] (m₁ m₂ : Eff α) (Q : α → Trace → Prop)
    (h₁ : c → m₁.sat Q) (h₂ : ¬c → m₂.sat Q) : (if c then m₁ else m₂).sat Q := by
  split
  · exact h₁ ‹_›
  · exact h₂ ‹_›

theorem sat_invoke (env : Env) (c : Call) (Q : Bool → Trace → Prop)
    (hq : ∀ h, Q (env.result h c) [⟨c, env.result h c⟩]) : (invoke env c).sat Q :=
  ⟨fun _ => hq _⟩

theorem sat_emit (c : Call) (Q : Unit → Trace → Prop) (hq : Q () [⟨c, true⟩]) :
    (emit c).sat Q := ⟨fun _ => hq⟩

theorem sat_CLOG (level : LogLevel) (msg : String) (Q : Unit → Trace → Prop)
    (hq : Q () [⟨Call.log level msg, true⟩]) : (CLOG level msg).sat Q := ⟨fun _ => hq⟩

theorem sat_query (c : Call) (answer : Trace → String) (Q : String → Trace → Prop)
    (hq : ∀ h, Q (answer h) [⟨c, true⟩]) : (query c answer).sat Q := ⟨fun _ => hq _⟩

/-! ## The events of a download -/

theorem DownloadKernelObjectFromURL_events (env : Env)
    (base_url kernel_module module_version : String) :
    (DownloadKernelObjectFromURL env base_url kernel_module module_version).sat
      (fun _ t => t.all (fun e => e.call.inDownload) = true) := by
  unfold DownloadKernelObjectFromURL
  dsimp only
  repeat' with_reducible first
    | apply sat_bind
    | apply sat_pure
    | apply sat_ite
    | apply sat_invoke
    | apply sat_emit
    | apply sat_CLOG
    | apply sat_query
    | intro _
  all_goals simp [Call.inDownload, Call.isDownloader]

theorem DownloadKernelObjectFromHostname_events (env : Env) (tls_config : JsonValue)
    (hostname kernel_module module_version : String) :
    (DownloadKernelObjectFromHostname env tls_config hostname kernel_module module_version).sat
      (fun _ t => t.all (fun e => e.call.inDownload) = true) := by
  have hu := fun a b c h => (DownloadKernelObjectFromURL_events env a b c).run h
  unfold DownloadKernelObjectFromHostname
  cases str_find hostname ':' with
  | none =>
    dsimp only
    repeat' with_reducible first
      | apply sat_bind
      | apply sat_pure
      | apply sat_CLOG
    all_goals simp [Call.inDownload, Call.isDownloader]
  | some port_offset =>
    dsimp only
    repeat' with_reducible first
      | apply sat_bind
      | apply sat_pure
      | apply sat_ite
      | apply sat_invoke
      | apply sat_emit
      | apply sat_CLOG
      | apply sat_query
      | apply Eff.sat.mk
      | intro _
    all_goals try simp only [List.all_append, hu, Bool.and_true]
    all_goals try simp [Call.inDownload, Call.isDownloader]

theorem DownloadKernelObject_events (env : Env) (hostname : String) (tls_config : JsonValue)
    (kernel_module compressed_module_path : String) (verbose : Bool) :
    (DownloadKernelObject env hostname tls_config kernel_module compressed_module_path verbose).sat
      (fun _ t => t.all (fun e => e.call.inDownload) = true) := by
  have hu := fun a b c h => (DownloadKernelObjectFromURL_events env a b c).run h
  have hn := fun a b c d h => (DownloadKernelObjectFromHostname_events env a b c d).run h
  unfold DownloadKernelObject
  dsimp only
  repeat' with_reducible first
    | apply sat_bind
    | apply sat_pure
    | apply sat_ite
    | apply sat_invoke
    | apply sat_emit
    | apply sat_CLOG
    | apply sat_query
    | apply Eff.sat.mk
    | intro _
  all_goals try simp only [List.all_append, hu, hn, Bool.and_true]
  all_goals try simp [Call.inDownload, Call.isDownloader]

theorem DownloadKernelObject_mem (env : Env) (hostname : String) (tls_config : JsonValue)
    (kernel_module compressed_module_path : String) (verbose : Bool) (h : Trace) :
    ∀ e ∈ (DownloadKernelObject env hostname tls_config kernel_module compressed_module_path
      verbose h).2, e.call.inDownload = true := by
  have := (DownloadKernelObject_events env hostname tls_config kernel_module
    compressed_module_path verbose).run h
  simpa [List.all_eq_true] using this

theorem inDownload_not_chmod (c : Call) (hc : c.inDownload = true) (path : String) (mode : Nat) :
    c ≠ Call.chmod path mode := by
  intro h
  subst h
  simp [Call.inDownload, Call.isDownloader] at hc

theorem hash_file_not_chmod (env : Env) (driver : String) (h : Trace) :
    ∀ e ∈ (Sha256HashFile env driver h).2, ∀ path mode, e.call ≠ Call.chmod path mode := by
  intro e he path mode hp
  rcases hash_file_events env driver h e he with h1 | h1 | ⟨msg, h1⟩ <;> simp [h1] at hp

/-- Claim C4.  For a candidate that is not CO-RE and is downloadable, with no
local compressed and no local raw artifact, if `DownloadKernelObject` to
`<install path>.gz` succeeds and decompressing that file into the install
path fails, then `GetKernelObject` returns `false`, its last event is
`TryUnlink(<install path>.gz)`, no `chmod` is issued, and in every world the
file `<install path>.gz` is absent after the call. -/
theorem GetKernelObject_download_decompress_failure (env : Env) (hostname : String)
    (tls_config : JsonValue) (candidate : DriverCandidate) (verbose : Bool) (h : Trace)
    (hcore : candidate.GetCollectionMethod ≠ CollectionMethod.CORE_BPF)
    (hgz : ∀ t, env.result t (Call.stat (expected_path_compressed candidate)) = false)
    (hraw : ∀ t, env.result t (Call.stat (expected_path candidate)) = false)
    (hdl : candidate.IsDownloadable = true)
    (hdown : ∀ t, (DownloadKernelObject env hostname tls_config candidate.GetName
      (module_path env candidate ++ ".gz") verbose t).1 = true)
    (hdec : ∀ t, env.result t
      (Call.DecompressFile (module_path env candidate ++ ".gz") (module_path env candidate))
        = false) :
    (GetKernelObject env hostname tls_config candidate verbose h).1 = false ∧
      (GetKernelObject env hostname tls_config candidate verbose h).2.getLast?
        = some ⟨Call.TryUnlink (module_path env candidate ++ ".gz"), true⟩ ∧
      (∀ e ∈ (GetKernelObject env hostname tls_config candidate verbose h).2,
        ∀ path mode, e.call ≠ Call.chmod path mode) ∧
      ∀ w : World, (w.after (GetKernelObject env hostname tls_config candidate verbose h).2).mode
        (module_path env candidate ++ ".gz") = none := by
  have hd := DownloadKernelObject_mem env hostname tls_config candidate.GetName
    (module_path env candidate ++ ".gz") verbose
  have hh := hash_file_not_chmod env (module_path env candidate ++ ".gz")
  simp only [expected_path_compressed, expected_path, module_path] at hgz hraw hdown hdec hd hh ⊢
  refine Eff.sat.run (Q := fun r t => r = false ∧
      t.getLast? = some ⟨Call.TryUnlink ((if candidate.GetCollectionMethod = CollectionMethod.EBPF
        then env.kProbePath else env.kModulePath) ++ ".gz"), true⟩ ∧
      (∀ e ∈ t, ∀ path mode, e.call ≠ Call.chmod path mode) ∧
      ∀ w : World, (w.after t).mode ((if candidate.GetCollectionMethod = CollectionMethod.EBPF
        then env.kProbePath else env.kModulePath) ++ ".gz") = none) ?_ h
  unfold GetKernelObject
  dsimp only
  repeat' with_reducible first
    | apply sat_bind
    | apply sat_pure
    | apply sat_ite
    | apply sat_invoke
    | apply sat_emit
    | apply sat_CLOG
    | apply sat_query
    | apply Eff.sat.mk
    | intro _
  all_goals simp_all
  refine ⟨?_, ?_, ?_⟩
  · simp [List.getLast?_append, List.getLast?_cons]
  · intro e he path mode
    rcases he with he | he | he | he | he | he
    · exact inDownload_not_chmod _ (hd _ e he) path mode
    · exact hh _ e he path mode
    all_goals simp [he]
  · intro w
    simp [after_append, after_cons, after_nil, World.step, TryUnlink_effect, World.set]

theorem GetKernelObject_download_decompress_failure_witness :
    (GetKernelObject (sample_env download_then_decompress_fails "2.3.0") "sensor.stackrox:443"
        (JsonValue.tls "ca.pem" "cert.pem" "key.pem")
        (sample_candidate CollectionMethod.EBPF true) false []).1 = false ∧
      ((sample_world [("/module/collector-ebpf.o.gz", 0o644)]).after
        (GetKernelObject (sample_env download_then_decompress_fails "2.3.0") "sensor.stackrox:443"
          (JsonValue.tls "ca.pem" "cert.pem" "key.pem")
          (sample_candidate CollectionMethod.EBPF true) false []).2).mode
        "/module/collector-ebpf.o.gz" = none :=
  have key := GetKernelObject_download_decompress_failure
    (sample_env download_then_decompress_fails "2.3.0") "sensor.stackrox:443"
    (JsonValue.tls "ca.pem" "cert.pem" "key.pem") (sample_candidate CollectionMethod.EBPF true)
    false [] (by decide) (fun _ => rfl) (fun _ => rfl) rfl (fun _ => rfl) (fun _ => rfl)
  ⟨key.1, key.2.2.2 (sample_world [("/module/collector-ebpf.o.gz", 0o644)])⟩

theorem DownloadKernelObject_chmod_not_mem (env : Env) (hostname : String)
    (tls_config : JsonValue) (kernel_module compressed_module_path : String) (verbose : Bool)
    (h : Trace) (path : String) (mode : Nat) (ok : Bool) :
    ⟨Call.chmod path mode, ok⟩ ∉ (DownloadKernelObject env hostname tls_config kernel_module
      compressed_module_path verbose h).2 := by
  intro hmem
  have := DownloadKernelObject_mem env hostname tls_config kernel_module
    compressed_module_path verbose h _ hmem
  simp [Call.inDownload, Call.isDownloader] at this

theorem hash_file_chmod_not_mem (env : Env) (driver : String) (h : Trace) (path : String)
    (mode : Nat) (ok : Bool) : ⟨Call.chmod path mode, ok⟩ ∉ (Sha256HashFile env driver h).2 := by
  intro hmem
  exact hash_file_not_chmod env driver h _ hmem path mode rfl

/-- Claim C5, counterexample.  A CO-RE candidate makes `GetKernelObject` return
`true` without any `chmod`: the trace is empty, so its last event is not a
successful `chmod(install path, 0444)`, and an install path that had mode 0644
before the call still has mode 0644 after it. -/
theorem GetKernelObject_core_bpf_mode_unchanged :
    (GetKernelObject (sample_env all_succeed "2.3.0") "sensor.stackrox:443" JsonValue.null
        (sample_candidate CollectionMethod.CORE_BPF true) false []).1 = true ∧
      (GetKernelObject (sample_env all_succeed "2.3.0") "sensor.stackrox:443" JsonValue.null
        (sample_candidate CollectionMethod.CORE_BPF true) false []).2.getLast?
        ≠ some ⟨Call.chmod (module_path (sample_env all_succeed "2.3.0")
            (sample_candidate CollectionMethod.CORE_BPF true)) 0o444, true⟩ ∧
      ((sample_world [("/module/collector.ko", 0o644)]).after
        (GetKernelObject (sample_env all_succeed "2.3.0") "sensor.stackrox:443" JsonValue.null
          (sample_candidate CollectionMethod.CORE_BPF true) false []).2).mode
        (module_path (sample_env all_succeed "2.3.0")
          (sample_candidate CollectionMethod.CORE_BPF true)) = some 0o644 := by
  decide

/-- Claim C5, amended.  For every candidate that is not CO-RE and every
environment: whenever `GetKernelObject` returns `true`, its last event is a
successful `chmod(install path, 0444)` and in every world the install path has
mode 0444 after the call; and whenever the trace holds a failed
`chmod(install path, 0444)`, the call returns `false`. -/
theorem GetKernelObject_success_mode_0444 (env : Env) (hostname : String)
    (tls_config : JsonValue) (candidate : DriverCandidate) (verbose : Bool) (h : Trace)
    (hcore : candidate.GetCollectionMethod ≠ CollectionMethod.CORE_BPF) :
    ((GetKernelObject env hostname tls_config candidate verbose h).1 = true →
        (GetKernelObject env hostname tls_config candidate verbose h).2.getLast?
          = some ⟨Call.chmod (module_path env candidate) 0o444, true⟩ ∧
        ∀ w : World, (w.after (GetKernelObject env hostname tls_config candidate verbose h).2).mode
          (module_path env candidate) = some 0o444) ∧
      (⟨Call.chmod (module_path env candidate) 0o444, false⟩ ∈
          (GetKernelObject env hostname tls_config candidate verbose h).2 →
        (GetKernelObject env hostname tls_config candidate verbose h).1 = false) := by
  simp only [module_path]
  refine Eff.sat.run (Q := fun r t =>
      (r = true → t.getLast? = some ⟨Call.chmod (if candidate.GetCollectionMethod
          = CollectionMethod.EBPF then env.kProbePath else env.kModulePath) 0o444, true⟩ ∧
        ∀ w : World, (w.after t).mode (if candidate.GetCollectionMethod
          = CollectionMethod.EBPF then env.kProbePath else env.kModulePath) = some 0o444) ∧
      (⟨Call.chmod (if candidate.GetCollectionMethod
          = CollectionMethod.EBPF then env.kProbePath else env.kModulePath) 0o444, false⟩ ∈ t →
        r = false)) ?_ h
  unfold GetKernelObject
  dsimp only
  repeat' with_reducible first
    | apply sat_bind
    | apply sat_pure
    | apply sat_ite
    | apply sat_invoke
    | apply sat_emit
    | apply sat_CLOG
    | apply sat_query
    | apply Eff.sat.mk
    | intro _
  all_goals
    refine ⟨fun hr => ?_, fun hmem => ?_⟩
    · first
      | exact Bool.noConfusion hr
      | exact absurd ‹candidate.GetCollectionMethod = CollectionMethod.CORE_BPF› hcore
      | refine ⟨?_, fun w => ?_⟩
        · simp_all [List.getLast?_append, List.getLast?_cons]
        · simp_all [after_append, after_cons, after_nil, World.step, World.set]
    · first
      | rfl
      | exact absurd ‹candidate.GetCollectionMethod = CollectionMethod.CORE_BPF› hcore
      | exfalso
        simp_all [DownloadKernelObject_chmod_not_mem, hash_file_chmod_not_mem]

theorem GetKernelObject_success_mode_0444_witness :
    (GetKernelObject (sample_env all_succeed "2.3.0") "sensor.stackrox:443" JsonValue.null
        (sample_candidate CollectionMethod.EBPF true) false []).2.getLast?
        = some ⟨Call.chmod (module_path (sample_env all_succeed "2.3.0")
            (sample_candidate CollectionMethod.EBPF true)) 0o444, true⟩ ∧
      ((sample_world []).after
        (GetKernelObject (sample_env all_succeed "2.3.0") "sensor.stackrox:443" JsonValue.null
          (sample_candidate CollectionMethod.EBPF true) false []).2).mode
        (module_path (sample_env all_succeed "2.3.0")
          (sample_candidate CollectionMethod.EBPF true)) = some 0o444 :=
  have key := (GetKernelObject_success_mode_0444 (sample_env all_succeed "2.3.0")
    "sensor.stackrox:443" JsonValue.null (sample_candidate CollectionMethod.EBPF true)
    false [] (by decide)).1 (by decide)
  ⟨key.1, key.2 (sample_world [])⟩

/-! ## A hostname without a port -/

theorem find_from_none (c : Char) (l : List Char) (hc : c ∉ l) :
    ∀ i, find_from l c i = none := by
  induction l with
  | nil => intro i; rfl
  | cons x xs ih =>
    intro i
    have hx : x ≠ c := fun hxc => hc (by simp [hxc])
    have hxs : c ∉ xs := fun hmem => hc (List.mem_cons_of_mem _ hmem)
    simp [find_from, hx, ih hxs]

theorem DownloadKernelObjectFromHostname_without_port (env : Env) (tls_config : JsonValue)
    (hostname kernel_module module_version : String) (hport : ':' ∉ hostname.data) (h : Trace) :
    DownloadKernelObjectFromHostname env tls_config hostname kernel_module module_version h
      = (false, [⟨Call.log LogLevel.WARNING "Provided hostname must have a valid port", true⟩]) := by
  have hf : str_find hostname ':' = none := find_from_none _ _ hport 0
  simp [DownloadKernelObjectFromHostname, hf, Eff_bind, Eff_pure, CLOG, emit]

/-- Claim C6.  For a hostname that contains no `:`,
`DownloadKernelObjectFromHostname` returns `false` and issues nothing but the
warning: no TLS material is configured, no URL is set, no download is issued.
`DownloadKernelObject` then attempts only the public mirror: every URL it
sets is `<GetModuleDownloadBaseURL()>/<module_version>/<kernel_module>.gz`
(followed by `?cid=collector` in the build that appends it), and it issues at
most one `Download`. -/
theorem DownloadKernelObject_hostname_without_port (env : Env) (hostname : String)
    (tls_config : JsonValue) (kernel_module compressed_module_path module_version : String)
    (verbose : Bool) (h : Trace) (hport : ':' ∉ hostname.data) :
    (∀ t, DownloadKernelObjectFromHostname env tls_config hostname kernel_module module_version t
      = (false, [⟨Call.log LogLevel.WARNING "Provided hostname must have a valid port", true⟩])) ∧
    (∀ e ∈ (DownloadKernelObject env hostname tls_config kernel_module compressed_module_path
        verbose h).2, ∀ url, e.call = Call.SetURL url → url = mirror_url env kernel_module) ∧
    (DownloadKernelObject env hostname tls_config kernel_module compressed_module_path
        verbose h).2.countP (fun e => decide (e.call = Call.Download)) ≤ 1 := by
  refine ⟨DownloadKernelObjectFromHostname_without_port env tls_config hostname kernel_module
    module_version hport, ?_⟩
  have hfh := DownloadKernelObjectFromHostname_without_port env tls_config hostname kernel_module
    env.GetModuleVersion hport
  refine Eff.sat.run (Q := fun _ t =>
      (∀ e ∈ t, ∀ url, e.call = Call.SetURL url → url = mirror_url env kernel_module) ∧
      t.countP (fun e => decide (e.call = Call.Download)) ≤ 1) ?_ h
  unfold DownloadKernelObject
  simp only [DownloadKernelObjectFromURL]
  repeat' with_reducible first
    | apply sat_bind
    | apply sat_pure
    | apply sat_ite
    | apply sat_invoke
    | apply sat_emit
    | apply sat_CLOG
    | apply sat_query
    | apply Eff.sat.mk
    | intro _
  all_goals
    cases hc : env.append_cid <;> simp_all [mirror_url, List.countP_cons]

theorem DownloadKernelObject_hostname_without_port_witness :
    DownloadKernelObjectFromHostname (sample_env all_succeed "2.3.0")
        (JsonValue.tls "ca.pem" "cert.pem" "key.pem") "sensor.stackrox" "collector-ebpf-5.4.0.o"
        "2.3.0" []
        = (false,
          [⟨Call.log LogLevel.WARNING "Provided hostname must have a valid port", true⟩]) ∧
      (DownloadKernelObject (sample_env all_succeed "2.3.0") "sensor.stackrox"
        (JsonValue.tls "ca.pem" "cert.pem" "key.pem") "collector-ebpf-5.4.0.o"
        "/module/collector-ebpf.o.gz" false []).2.countP
        (fun e => decide (e.call = Call.Download)) ≤ 1 :=
  have key := DownloadKernelObject_hostname_without_port (sample_env all_succeed "2.3.0")
    "sensor.stackrox" (JsonValue.tls "ca.pem" "cert.pem" "key.pem") "collector-ebpf-5.4.0.o"
    "/module/collector-ebpf.o.gz" "2.3.0" false [] (by decide)
  ⟨key.1 [], key.2.2⟩

/-! ## An empty version manifest -/

theorem DownloadKernelObject_empty_version (env : Env) (hver : env.GetModuleVersion = "")
    (hostname : String) (tls_config : JsonValue)
    (kernel_module compressed_module_path : String) (verbose : Bool) :
    (DownloadKernelObject env hostname tls_config kernel_module compressed_module_path verbose).sat
      (fun r t => r = false ∧ t.all (fun e => !e.call.isFetch) = true) := by
  unfold DownloadKernelObject
  dsimp only
  repeat' with_reducible first
    | apply sat_bind
    | apply sat_pure
    | apply sat_ite
    | apply sat_invoke
    | apply sat_emit
    | apply sat_CLOG
    | apply sat_query
    | apply Eff.sat.mk
    | intro _
  all_goals simp_all [Call.isFetch]

theorem DownloadKernelObject_empty_version_result (env : Env) (hver : env.GetModuleVersion = "")
    (hostname : String) (tls_config : JsonValue)
    (kernel_module compressed_module_path : String) (verbose : Bool) (h : Trace) :
    (DownloadKernelObject env hostname tls_config kernel_module compressed_module_path
      verbose h).1 = false :=
  ((DownloadKernelObject_empty_version env hver hostname tls_config kernel_module
    compressed_module_path verbose).run h).1

theorem DownloadKernelObject_empty_version_events (env : Env) (hver : env.GetModuleVersion = "")
    (hostname : String) (tls_config : JsonValue)
    (kernel_module compressed_module_path : String) (verbose : Bool) (h : Trace) :
    (DownloadKernelObject env hostname tls_config kernel_module compressed_module_path
      verbose h).2.all (fun e => !e.call.isFetch) = true :=
  ((DownloadKernelObject_empty_version env hver hostname tls_config kernel_module
    compressed_module_path verbose).run h).2

theorem hash_file_not_fetch (env : Env) (driver : String) (h : Trace) :
    (Sha256HashFile env driver h).2.all (fun e => !e.call.isFetch) = true := by
  rw [List.all_eq_true]
  intro e he
  rcases hash_file_events env driver h e he with h1 | h1 | ⟨msg, h1⟩ <;>
    simp [h1, Call.isFetch]

/-- Claim C7, counterexample.  With an empty version manifest `GetKernelObject`
still returns `true` for a candidate whose compressed artifact is in local
storage, and for a CO-RE candidate. -/
theorem GetKernelObject_empty_version_success :
    (sample_env all_succeed "").GetModuleVersion = "" ∧
      (GetKernelObject (sample_env all_succeed "") "sensor.stackrox:443"
        (JsonValue.tls "ca.pem" "cert.pem" "key.pem")
        (sample_candidate CollectionMethod.EBPF true) false []).1 = true ∧
      (GetKernelObject (sample_env all_succeed "") "sensor.stackrox:443"
        (JsonValue.tls "ca.pem" "cert.pem" "key.pem")
        (sample_candidate CollectionMethod.CORE_BPF true) false []).1 = true := by
  decide

/-- Claim C7, amended.  Given an empty version manifest (`GetModuleVersion()`
returns the empty string), for every hostname, TLS configuration and
candidate no event of `GetKernelObject` is a `SetURL` or a `Download`; and
when the candidate is not CO-RE and neither local artifact is found,
`GetKernelObject` returns `false`. -/
theorem GetKernelObject_empty_version_no_fetch (env : Env) (hostname : String)
    (tls_config : JsonValue) (candidate : DriverCandidate) (verbose : Bool) (h : Trace)
    (hver : env.GetModuleVersion = "") :
    (∀ e ∈ (GetKernelObject env hostname tls_config candidate verbose h).2,
        e.call.isFetch = false) ∧
      (candidate.GetCollectionMethod ≠ CollectionMethod.CORE_BPF →
        (∀ t, env.result t (Call.stat (expected_path_compressed candidate)) = false) →
        (∀ t, env.result t (Call.stat (expected_path candidate)) = false) →
        (GetKernelObject env hostname tls_config candidate verbose h).1 = false) := by
  have key : (GetKernelObject env hostname tls_config candidate verbose).sat (fun r t =>
      t.all (fun e => !e.call.isFetch) = true ∧
      (candidate.GetCollectionMethod ≠ CollectionMethod.CORE_BPF →
        (∀ t, env.result t (Call.stat (candidate.GetPath ++ "/" ++ candidate.GetName ++ ".gz"))
          = false) →
        (∀ t, env.result t (Call.stat (candidate.GetPath ++ "/" ++ candidate.GetName)) = false) →
        r = false)) := by
    unfold GetKernelObject
    dsimp only
    repeat' with_reducible first
      | apply sat_bind
      | apply sat_pure
      | apply sat_ite
      | apply sat_invoke
      | apply sat_emit
      | apply sat_CLOG
      | apply sat_query
      | apply Eff.sat.mk
      | intro _
    all_goals
      refine ⟨?_, ?_⟩
      · try simp only [List.all_append, hash_file_not_fetch,
          DownloadKernelObject_empty_version_events env hver, Bool.and_true, Bool.true_and]
        try simp [Call.isFetch]
      · intro hcore hgz hraw
        simp_all [DownloadKernelObject_empty_version_result env hver]
  have hrun := key.run h
  simp only [expected_path_compressed, expected_path]
  refine ⟨?_, hrun.2⟩
  have hall := hrun.1
  rw [List.all_eq_true] at hall
  intro e he
  simpa using hall e he

theorem GetKernelObject_empty_version_no_fetch_witness :
    (GetKernelObject (sample_env nothing_local "") "sensor.stackrox:443"
        (JsonValue.tls "ca.pem" "cert.pem" "key.pem")
        (sample_candidate CollectionMethod.EBPF true) false []).1 = false :=
  (GetKernelObject_empty_version_no_fetch (sample_env nothing_local "") "sensor.stackrox:443"
    (JsonValue.tls "ca.pem" "cert.pem" "key.pem") (sample_candidate CollectionMethod.EBPF true)
    false [] rfl).2 (by decide) (fun _ => rfl) (fun _ => rfl)

/-! ## The process-signal handler -/

/-- Claim C8.  For an event on which the formatter returns no message,
`HandleSignal` returns `IGNORED`, increases `nProcessResolutionFailures` by
exactly 1 and leaves the three other counters as they were; the only call
made on a collaborator is the `ToProtoMessage`, so the rate limiter is not
consulted and `PushSignals` is not called. -/
theorem HandleSignal_formatter_declines (env : SignalEnv) (evt : sinsp_evt) (s : HandlerState)
    (hfmt : env.ToProtoMessage s.calls evt = none) :
    (HandleSignal env evt s).1 = Result.IGNORED ∧
      (HandleSignal env evt s).2.stats.nProcessResolutionFailures
        = s.stats.nProcessResolutionFailures + 1 ∧
      (HandleSignal env evt s).2.stats.nProcessRateLimitCount = s.stats.nProcessRateLimitCount ∧
      (HandleSignal env evt s).2.stats.nProcessSent = s.stats.nProcessSent ∧
      (HandleSignal env evt s).2.stats.nProcessSendFailures = s.stats.nProcessSendFailures ∧
      (HandleSignal env evt s).2.calls = s.calls ++ [SignalCall.ToProtoMessage evt] := by
  simp [HandleSignal, hfmt]

theorem HandleSignal_formatter_declines_witness :
    (HandleSignal (sample_signal_env none true Result.PROCESSED) ⟨7⟩ sample_state).1
        = Result.IGNORED ∧
      (HandleSignal (sample_signal_env none true Result.PROCESSED) ⟨7⟩ sample_state).2.stats
        = ⟨1, 0, 0, 0⟩ ∧
      (HandleSignal (sample_signal_env none true Result.PROCESSED) ⟨7⟩ sample_state).2.calls
        = [SignalCall.ToProtoMessage ⟨7⟩] :=
  have key := HandleSignal_formatter_declines (sample_signal_env none true Result.PROCESSED)
    ⟨7⟩ sample_state rfl
  ⟨key.1, by decide, key.2.2.2.2.2⟩

/-- Claim C9.  For an event that formats to a message whose process key the rate
limiter rejects, `HandleSignal` returns `IGNORED`, increases
`nProcessRateLimitCount` by exactly 1 and leaves the three other counters as
they were; the calls made are the `ToProtoMessage` and the `Allow` on the key
of the message, so `PushSignals` is not called. -/
theorem HandleSignal_rate_limited (env : SignalEnv) (evt : sinsp_evt) (s : HandlerState)
    (msg : SignalStreamMessage)
    (hfmt : env.ToProtoMessage s.calls evt = some msg)
    (hallow : env.Allow (s.calls ++ [SignalCall.ToProtoMessage evt])
      (compute_process_key msg.process_signal) = false) :
    (HandleSignal env evt s).1 = Result.IGNORED ∧
      (HandleSignal env evt s).2.stats.nProcessRateLimitCount
        = s.stats.nProcessRateLimitCount + 1 ∧
      (HandleSignal env evt s).2.stats.nProcessResolutionFailures
        = s.stats.nProcessResolutionFailures ∧
      (HandleSignal env evt s).2.stats.nProcessSent = s.stats.nProcessSent ∧
      (HandleSignal env evt s).2.stats.nProcessSendFailures = s.stats.nProcessSendFailures ∧
      (HandleSignal env evt s).2.calls = s.calls ++ [SignalCall.ToProtoMessage evt,
        SignalCall.Allow (compute_process_key msg.process_signal)] := by
  simp [HandleSignal, hfmt, hallow]

theorem HandleSignal_rate_limited_witness :
    (HandleSignal (sample_signal_env (some sample_message) false Result.PROCESSED) ⟨7⟩
        sample_state).1 = Result.IGNORED ∧
      (HandleSignal (sample_signal_env (some sample_message) false Result.PROCESSED) ⟨7⟩
        sample_state).2.stats.nProcessRateLimitCount = 1 ∧
      (HandleSignal (sample_signal_env (some sample_message) false Result.PROCESSED) ⟨7⟩
        sample_state).2.calls
        = [SignalCall.ToProtoMessage ⟨7⟩, SignalCall.Allow "c0ffee sh -c ls /bin/sh"] :=
  have key := HandleSignal_rate_limited
    (sample_signal_env (some sample_message) false Result.PROCESSED) ⟨7⟩ sample_state
    sample_message rfl rfl
  ⟨key.1, key.2.1, key.2.2.2.2.2⟩

/-- Claim C10, counterexample.  When the delivery client returns `IGNORED` for
an admitted message, `PushSignals` has been called and `HandleSignal` returns
`IGNORED`, but neither `nProcessSent` nor `nProcessSendFailures` has been
increased: no counter at all has changed. -/
theorem HandleSignal_client_ignored_counts_nothing :
    (HandleSignal (sample_signal_env (some sample_message) true Result.IGNORED) ⟨7⟩
        sample_state).1 = Result.IGNORED ∧
      SignalCall.PushSignals sample_message ∈
        (HandleSignal (sample_signal_env (some sample_message) true Result.IGNORED) ⟨7⟩
          sample_state).2.calls ∧
      (HandleSignal (sample_signal_env (some sample_message) true Result.IGNORED) ⟨7⟩
        sample_state).2.stats.nProcessSent = sample_state.stats.nProcessSent ∧
      (HandleSignal (sample_signal_env (some sample_message) true Result.IGNORED) ⟨7⟩
        sample_state).2.stats.nProcessSendFailures = sample_state.stats.nProcessSendFailures ∧
      (HandleSignal (sample_signal_env (some sample_message) true Result.IGNORED) ⟨7⟩
        sample_state).2.stats = sample_state.stats := by
  decide

/-- Claim C10, amended.  For an event that formats to a message whose key the
rate limiter admits, `HandleSignal` calls `PushSignals` exactly once, after
the `ToProtoMessage` and the `Allow`, and returns the outcome of the client
unchanged; on `PROCESSED` it increases `nProcessSent` by 1 and no other
counter, on `ERROR` it increases `nProcessSendFailures` by 1 and no other
counter, and on `IGNORED` it leaves all four counters as they were. -/
theorem HandleSignal_delivered (env : SignalEnv) (evt : sinsp_evt) (s : HandlerState)
    (msg : SignalStreamMessage)
    (hfmt : env.ToProtoMessage s.calls evt = some msg)
    (hallow : env.Allow (s.calls ++ [SignalCall.ToProtoMessage evt])
      (compute_process_key msg.process_signal) = true) :
    (HandleSignal env evt s).2.calls = s.calls ++ [SignalCall.ToProtoMessage evt,
        SignalCall.Allow (compute_process_key msg.process_signal), SignalCall.PushSignals msg] ∧
      (HandleSignal env evt s).1 = env.PushSignals (s.calls ++ [SignalCall.ToProtoMessage evt,
        SignalCall.Allow (compute_process_key msg.process_signal)]) msg ∧
      ((HandleSignal env evt s).1 = Result.PROCESSED →
        (HandleSignal env evt s).2.stats
          = { s.stats with nProcessSent := s.stats.nProcessSent + 1 }) ∧
      ((HandleSignal env evt s).1 = Result.ERROR →
        (HandleSignal env evt s).2.stats
          = { s.stats with nProcessSendFailures := s.stats.nProcessSendFailures + 1 }) ∧
      ((HandleSignal env evt s).1 = Result.IGNORED →
        (HandleSignal env evt s).2.stats = s.stats) := by
  simp only [HandleSignal, hfmt, hallow, List.append_assoc, List.singleton_append]
  cases hpush : env.PushSignals (s.calls ++ [SignalCall.ToProtoMessage evt,
      SignalCall.Allow (compute_process_key msg.process_signal)]) msg <;> simp

theorem HandleSignal_delivered_witness :
    (HandleSignal (sample_signal_env (some sample_message) true Result.ERROR) ⟨7⟩
        sample_state).1 = Result.ERROR ∧
      (HandleSignal (sample_signal_env (some sample_message) true Result.ERROR) ⟨7⟩
        sample_state).2.stats = ⟨0, 0, 0, 1⟩ ∧
      (HandleSignal (sample_signal_env (some sample_message) true Result.ERROR) ⟨7⟩
        sample_state).2.calls
        = [SignalCall.ToProtoMessage ⟨7⟩, SignalCall.Allow "c0ffee sh -c ls /bin/sh",
          SignalCall.PushSignals sample_message] :=
  have key := HandleSignal_delivered
    (sample_signal_env (some sample_message) true Result.ERROR) ⟨7⟩ sample_state
    sample_message rfl rfl
  ⟨key.2.1, key.2.2.2.1 key.2.1, key.1⟩


/-! ## The signal key -/

theorem append_sep_inj (c : Char) (l₁ l₂ r₁ r₂ : List Char) (h₁ : c ∉ l₁) (h₂ : c ∉ l₂)
    (h : l₁ ++ c :: r₁ = l₂ ++ c :: r₂) : l₁ = l₂ ∧ r₁ = r₂ := by
  induction l₁ generalizing l₂ with
  | nil =>
    cases l₂ with
    | nil => simpa using h
    | cons y ys =>
      simp only [List.nil_append, List.cons_append, List.cons.injEq] at h
      exact absurd (by simp [h.1]) h₂
  | cons x xs ih =>
    cases l₂ with
    | nil =>
      simp only [List.nil_append, List.cons_append, List.cons.injEq] at h
      exact absurd (by simp [h.1]) h₁
    | cons y ys =>
      simp only [List.cons_append, List.cons.injEq] at h
      have hx : c ∉ xs := fun hm => h₁ (List.mem_cons_of_mem _ hm)
      have hy : c ∉ ys := fun hm => h₂ (List.mem_cons_of_mem _ hm)
      obtain ⟨e₁, e₂⟩ := ih ys hx hy h.2
      exact ⟨by rw [h.1, e₁], e₂⟩

theorem compute_process_key_data (s : ProcessSignal) :
    (compute_process_key s).data
      = s.container_id.data ++ ' ' :: (s.name.data ++ ' ' :: (s.args.data ++ ' ' ::
        s.exec_file_path.data)) := by
  simp [compute_process_key, String.data_append]

/-- Claim C11, counterexample.  Two process signals that differ in the container
id and in the name get the same key, because the fields are joined by single
spaces and may hold spaces themselves. -/
theorem compute_process_key_collision :
    (⟨"a", "b c", "", ""⟩ : ProcessSignal) ≠ ⟨"a b", "c", "", ""⟩ ∧
      compute_process_key ⟨"a", "b c", "", ""⟩ = compute_process_key ⟨"a b", "c", "", ""⟩ := by
  decide

/-- Claim C11, amended.  Equal tuples (container id, name, arguments, executable
path) always give equal keys, and two process signals whose container id, name
and arguments hold no space character get different keys as soon as they
differ in one of the four fields. -/
theorem compute_process_key_injective (s₁ s₂ : ProcessSignal)
    (h₁ : space_free s₁) (h₂ : space_free s₂) :
    compute_process_key s₁ = compute_process_key s₂ ↔ s₁ = s₂ := by
  constructor
  · intro hkey
    have hdata := congrArg String.data hkey
    rw [compute_process_key_data, compute_process_key_data] at hdata
    obtain ⟨e₁, hdata⟩ := append_sep_inj _ _ _ _ _ h₁.1 h₂.1 hdata
    obtain ⟨e₂, hdata⟩ := append_sep_inj _ _ _ _ _ h₁.2.1 h₂.2.1 hdata
    obtain ⟨e₃, e₄⟩ := append_sep_inj _ _ _ _ _ h₁.2.2 h₂.2.2 hdata
    cases s₁
    cases s₂
    simp only [ProcessSignal.mk.injEq]
    exact ⟨String.ext e₁, String.ext e₂, String.ext e₃, String.ext e₄⟩
  · intro h
    rw [h]

theorem compute_process_key_injective_witness :
    compute_process_key ⟨"c0ffee", "sh", "-c", "/bin/sh"⟩
        ≠ compute_process_key ⟨"c0ffee", "sh", "-c", "/bin/my sh"⟩ :=
  fun hkey => absurd
    ((compute_process_key_injective ⟨"c0ffee", "sh", "-c", "/bin/sh"⟩
      ⟨"c0ffee", "sh", "-c", "/bin/my sh"⟩ (by decide) (by decide)).mp hkey) (by decide)

/-! ## The Mesos socket collector -/

theorem nfds_loop_sockets (l : socket_map_t) (s : mesos_collector) :
    (l.foldl (fun (self : mesos_collector) sock =>
      if sock.1 > self.m_nfds then { self with m_nfds := sock.1 } else self) s).m_sockets
        = s.m_sockets := by
  induction l generalizing s with
  | nil => rfl
  | cons p l ih =>
    simp only [List.foldl_cons]
    rw [ih]
    split <;> rfl

theorem nfds_loop_bounds (l : socket_map_t) (s : mesos_collector) :
    s.m_nfds ≤ (l.foldl (fun (self : mesos_collector) sock =>
        if sock.1 > self.m_nfds then { self with m_nfds := sock.1 } else self) s).m_nfds ∧
      (∀ sock ∈ l, sock.1 ≤ (l.foldl (fun (self : mesos_collector) sock =>
        if sock.1 > self.m_nfds then { self with m_nfds := sock.1 } else self) s).m_nfds) ∧
      ((l.foldl (fun (self : mesos_collector) sock =>
        if sock.1 > self.m_nfds then { self with m_nfds := sock.1 } else self) s).m_nfds
          = s.m_nfds ∨
        ∃ sock ∈ l, sock.1 = (l.foldl (fun (self : mesos_collector) sock =>
          if sock.1 > self.m_nfds then { self with m_nfds := sock.1 } else self) s).m_nfds) := by
  induction l generalizing s with
  | nil => simp
  | cons p l ih =>
    simp only [List.foldl_cons, List.forall_mem_cons, List.exists_mem_cons_iff] 
    by_cases hp : p.1 > s.m_nfds
    · simp only [hp, if_true]
      obtain ⟨h1, h2, h3⟩ := ih { s with m_nfds := p.1 }
      simp only at h1 h3
      refine ⟨by omega, ⟨h1, h2⟩, ?_⟩
      rcases h3 with h3 | h3
      · exact Or.inr (Or.inl h3.symm)
      · exact Or.inr (Or.inr h3)
    · simp only [hp, if_false]
      obtain ⟨h1, h2, h3⟩ := ih s
      refine ⟨h1, ⟨by omega, h2⟩, ?_⟩
      rcases h3 with h3 | h3
      · exact Or.inl h3
      · exact Or.inr (Or.inr h3)

theorem map_assign_mem (l : socket_map_t) (key : Int) (handler : Nat) :
    (key, handler) ∈ map_assign l key handler ∧
      (∀ sock ∈ map_assign l key handler, sock = (key, handler) ∨ sock ∈ l) ∧
      (∀ sock ∈ l, sock.1 ≠ key → sock ∈ map_assign l key handler) := by
  induction l with
  | nil => simp [map_assign]
  | cons p l ih =>
    obtain ⟨k, v⟩ := p
    obtain ⟨h1, h2, h3⟩ := ih
    simp only [map_assign]
    split_ifs with hlt heq
    · refine ⟨by simp, ?_, ?_⟩
      · intro sock hs
        simp only [List.mem_cons] at hs ⊢
        tauto
      · intro sock hs _
        simp only [List.mem_cons] at hs ⊢
        tauto
    · subst heq
      refine ⟨by simp, ?_, ?_⟩
      · intro sock hs
        simp only [List.mem_cons] at hs ⊢
        tauto
      · intro sock hs hne
        simp only [List.mem_cons] at hs ⊢
        rcases hs with hs | hs
        · exact absurd (by rw [hs]) hne
        · exact Or.inr hs
    · refine ⟨List.mem_cons_of_mem _ h1, ?_, ?_⟩
      · intro sock hs
        simp only [List.mem_cons] at hs ⊢
        rcases hs with hs | hs
        · exact Or.inr (Or.inl hs)
        · rcases h2 sock hs with h | h
          · exact Or.inl h
          · exact Or.inr (Or.inr h)
      · intro sock hs hne
        simp only [List.mem_cons] at hs ⊢
        rcases hs with hs | hs
        · exact Or.inl hs
        · exact Or.inr (h3 sock hs hne)

theorem remove_iterator_nfds (s : mesos_collector) (it : Nat) :
    (s.remove_iterator it).1.nfds_is_largest := by
  simp only [mesos_collector.remove_iterator, mesos_collector.nfds_is_largest, nfds_loop_sockets]
  split_ifs with hit
  · obtain ⟨h1, h2, h3⟩ := nfds_loop_bounds (s.m_sockets.eraseIdx it)
      { s with m_sockets := s.m_sockets.eraseIdx it, m_nfds := 0 }
    exact ⟨h2, h3, h1⟩
  · obtain ⟨h1, h2, h3⟩ := nfds_loop_bounds s.m_sockets { s with m_nfds := 0 }
    exact ⟨h2, h3, h1⟩

theorem remove_loop_nfds (s : mesos_collector) (handler : Nat) (hs : s.nfds_is_largest)
    (rest : socket_map_t) (it : Nat) : (s.remove_loop handler rest it).1.nfds_is_largest := by
  induction rest generalizing it with
  | nil => exact hs
  | cons p rest ih =>
    obtain ⟨k, v⟩ := p
    simp only [mesos_collector.remove_loop]
    split_ifs
    · exact remove_iterator_nfds s it
    · exact ih (it + 1)

theorem add_nfds (s : mesos_collector) (handler : Nat) (sockfd : Int)
    (hs : s.nfds_is_largest) : (s.add handler sockfd).nfds_is_largest := by
  obtain ⟨h1, h2, h3⟩ := hs
  obtain ⟨m1, m2, m3⟩ := map_assign_mem s.m_sockets sockfd handler
  simp only [mesos_collector.add, mesos_collector.nfds_is_largest]
  by_cases hgt : sockfd > s.m_nfds
  · simp only [hgt, if_true]
    refine ⟨?_, Or.inr ⟨_, m1, rfl⟩, by omega⟩
    intro sock hsock
    rcases m2 sock hsock with h | h
    · rw [h]
    · have := h1 sock h
      omega
  · simp only [hgt, if_false]
    refine ⟨?_, ?_, h3⟩
    · intro sock hsock
      rcases m2 sock hsock with h | h
      · rw [h]
        simp only
        omega
      · exact h1 sock h
    · rcases h2 with h2 | ⟨sock, hsock, he⟩
      · exact Or.inl h2
      · by_cases hk : sock.1 = sockfd
        · exact Or.inr ⟨_, m1, by simp only; omega⟩
        · exact Or.inr ⟨sock, m3 sock hsock hk, he⟩

theorem apply_nfds (s : mesos_collector) (op : CollectorOp) (hs : s.nfds_is_largest) :
    (op.apply s).nfds_is_largest := by
  cases op with
  | add handler sockfd => exact add_nfds s handler sockfd hs
  | remove handler => exact remove_loop_nfds s handler hs _ _
  | remove_iterator it => exact remove_iterator_nfds s it
  | remove_all => simp [CollectorOp.apply, mesos_collector.remove_all, mesos_collector.clear,
      mesos_collector.nfds_is_largest]

theorem foldl_apply_nfds (ops : List CollectorOp) (s : mesos_collector)
    (hs : s.nfds_is_largest) : (ops.foldl CollectorOp.apply s).nfds_is_largest := by
  induction ops generalizing s with
  | nil => exact hs
  | cons op ops ih => exact ih _ (apply_nfds s op hs)

/-- Claim C14.  After construction and every sequence of `add`, `remove(handler)`,
`remove(iterator)` and `remove_all`, with any descriptors and handlers, the field
`m_nfds` bounds every descriptor registered in `m_sockets`, is either `0` or one of
the registered descriptors, and is not negative (so it is the largest registered
descriptor, or `0` when there is none above `0`); and the value `m_nfds + 1` handed
to `select` is strictly greater than every registered descriptor. -/
theorem mesos_collector_nfds_largest (do_loop : Bool) (timeout_ms : Int)
    (ops : List CollectorOp) :
    (∀ sock ∈ (mesos_collector.after do_loop timeout_ms ops).m_sockets,
        sock.1 ≤ (mesos_collector.after do_loop timeout_ms ops).m_nfds) ∧
      ((mesos_collector.after do_loop timeout_ms ops).m_nfds = 0 ∨
        ∃ sock ∈ (mesos_collector.after do_loop timeout_ms ops).m_sockets,
          sock.1 = (mesos_collector.after do_loop timeout_ms ops).m_nfds) ∧
      0 ≤ (mesos_collector.after do_loop timeout_ms ops).m_nfds ∧
      ∀ sock ∈ (mesos_collector.after do_loop timeout_ms ops).m_sockets,
        sock.1 < (mesos_collector.after do_loop timeout_ms ops).select_nfds := by
  have key : (mesos_collector.after do_loop timeout_ms ops).nfds_is_largest :=
    foldl_apply_nfds ops _ (by
      simp [mesos_collector.construct, mesos_collector.clear,
        mesos_collector.nfds_is_largest])
  obtain ⟨h1, h2, h3⟩ := key
  refine ⟨h1, h2, h3, ?_⟩
  intro sock hsock
  have := h1 sock hsock
  simp only [mesos_collector.select_nfds]
  omega

/-! ## The request to the configured host -/

theorem find_from_append (c : Char) (l r : List Char) (hc : c ∉ l) :
    ∀ i, find_from (l ++ c :: r) c i = some (i + l.length) := by
  induction l with
  | nil => intro i; simp [find_from]
  | cons x xs ih =>
    intro i
    have hx : x ≠ c := fun hxc => hc (by simp [hxc])
    have hxs : c ∉ xs := fun hmem => hc (List.mem_cons_of_mem _ hmem)
    rw [List.cons_append, find_from, if_neg hx, ih hxs (i + 1), List.length_cons]
    congr 1
    omega

theorem str_find_host_port (host port : String) (hhost : ':' ∉ host.data) :
    str_find (host ++ ":" ++ port) ':' = some host.data.length := by
  have hd : (host ++ ":" ++ port).data = host.data ++ ':' :: port.data := by
    simp [String.data_append]
  rw [str_find, hd, find_from_append _ _ _ hhost 0, Nat.zero_add]

theorem str_compare_host_port (host port sni : String) :
    str_compare_ne (host ++ ":" ++ port) host.data.length sni = decide (host ≠ sni) := by
  have hd : (host ++ ":" ++ port).data = host.data ++ ':' :: port.data := by
    simp [String.data_append]
  simp only [str_compare_ne, hd, List.take_left']

theorem str_substr_host_port (host port : String) :
    str_substr (host ++ ":" ++ port) (host.data.length + 1) = port := by
  have hd : (host ++ ":" ++ port).data = host.data ++ ':' :: port.data := by
    simp [String.data_append]
  simp only [str_substr, hd]
  apply String.ext
  show List.drop (host.data.length + 1) (host.data ++ ':' :: port.data) = port.data
  rw [← List.drop_drop, List.drop_left]
  rfl

theorem server_url_eq (env : Env) (server kernel_module module_version : String) :
    (if env.append_cid then
        "https://" ++ server ++ "/kernel-objects" ++ "/" ++ module_version ++ "/" ++ kernel_module
          ++ ".gz" ++ "?cid=collector"
      else
        "https://" ++ server ++ "/kernel-objects" ++ "/" ++ module_version ++ "/" ++ kernel_module
          ++ ".gz")
      = server_url env server kernel_module module_version := by
  unfold server_url
  split <;> apply String.ext <;> simp [String.data_append]

theorem DownloadKernelObjectFromURL_request (env : Env)
    (server kernel_module module_version : String) :
    (DownloadKernelObjectFromURL env ("https://" ++ server ++ "/kernel-objects") kernel_module
        module_version).sat
      (fun _ t => t.filterMap (fun e => e.call.request_url)
          = [server_url env server kernel_module module_version] ∧
        t.filter (fun e => e.call.isConnectTo) = []) := by
  unfold DownloadKernelObjectFromURL
  dsimp only
  rw [server_url_eq]
  repeat' with_reducible first
    | apply sat_bind
    | apply sat_pure
    | apply sat_ite
    | apply sat_invoke
    | apply sat_emit
    | apply sat_CLOG
    | apply sat_query
    | intro _
  all_goals simp [Call.request_url, Call.isConnectTo]

theorem DownloadKernelObjectFromURL_request_url (env : Env)
    (server kernel_module module_version : String) (h : Trace) :
    (DownloadKernelObjectFromURL env ("https://" ++ server ++ "/kernel-objects") kernel_module
        module_version h).2.filterMap (fun e => e.call.request_url)
      = [server_url env server kernel_module module_version] :=
  ((DownloadKernelObjectFromURL_request env server kernel_module module_version).run h).1

theorem DownloadKernelObjectFromURL_no_connect_to (env : Env)
    (server kernel_module module_version : String) (h : Trace) :
    (DownloadKernelObjectFromURL env ("https://" ++ server ++ "/kernel-objects") kernel_module
        module_version h).2.filter (fun e => e.call.isConnectTo) = [] :=
  ((DownloadKernelObjectFromURL_request env server kernel_module module_version).run h).2

theorem base_url_not_empty (server : String) :
    "https://" ++ server ++ "/kernel-objects" ≠ "" := by
  intro he
  have hd := congrArg String.length he
  simp only [String.length_append] at hd
  have h8 : "https://".length = 8 := by decide
  have h15 : "/kernel-objects".length = 15 := by decide
  have h0 : "".length = 0 := by decide
  omega

/-- Claim C12.  For a hostname `host:port` whose host part holds no `:`, an SNI
name without `:`, and a TLS configuration that is not null and whose CA
certificate, client certificate and key the downloader accepts: when the host
part differs from the SNI name, the only connect-to override set by
`DownloadKernelObjectFromHostname` is the one from the SNI name to the literal
hostname, and the only URL set is
`https://<SNI>:<port>/kernel-objects/<module_version>/<kernel_module>.gz`; when
they are equal no connect-to override is set and the only URL set is
`https://<hostname>/kernel-objects/<module_version>/<kernel_module>.gz` (each
followed by `?cid=collector` in the build that appends it). -/
theorem DownloadKernelObjectFromHostname_server_name (env : Env) (tls_config : JsonValue)
    (host port kernel_module module_version : String) (h : Trace)
    (hhost : ':' ∉ host.data) (hsni : ':' ∉ env.GetSNIHostname.data)
    (htls : tls_config.isNull = false)
    (hca : ∀ t, env.result t (Call.CACert tls_config.caCertPath) = true)
    (hcert : ∀ t, env.result t (Call.Cert tls_config.clientCertPath) = true)
    (hkey : ∀ t, env.result t (Call.Key tls_config.clientKeyPath) = true) :
    (host ≠ env.GetSNIHostname →
      (DownloadKernelObjectFromHostname env tls_config (host ++ ":" ++ port) kernel_module
          module_version h).2.filter (fun e => e.call.isConnectTo)
        = [⟨Call.SetConnectTo env.GetSNIHostname (host ++ ":" ++ port), true⟩] ∧
      (DownloadKernelObjectFromHostname env tls_config (host ++ ":" ++ port) kernel_module
          module_version h).2.filterMap (fun e => e.call.request_url)
        = [server_url env (env.GetSNIHostname ++ ":" ++ port) kernel_module module_version]) ∧
    (host = env.GetSNIHostname →
      (DownloadKernelObjectFromHostname env tls_config (host ++ ":" ++ port) kernel_module
          module_version h).2.filter (fun e => e.call.isConnectTo) = [] ∧
      (DownloadKernelObjectFromHostname env tls_config (host ++ ":" ++ port) kernel_module
          module_version h).2.filterMap (fun e => e.call.request_url)
        = [server_url env (host ++ ":" ++ port) kernel_module module_version]) := by
  have hfs : str_find env.GetSNIHostname ':' = none := find_from_none _ _ hsni 0
  have key : (DownloadKernelObjectFromHostname env tls_config (host ++ ":" ++ port)
      kernel_module module_version).sat (fun _ t =>
        t.filter (fun e => e.call.isConnectTo)
          = (if host ≠ env.GetSNIHostname then
              [⟨Call.SetConnectTo env.GetSNIHostname (host ++ ":" ++ port), true⟩] else []) ∧
        t.filterMap (fun e => e.call.request_url)
          = [server_url env (if host ≠ env.GetSNIHostname then env.GetSNIHostname ++ ":" ++ port
              else host ++ ":" ++ port) kernel_module module_version]) := by
    unfold DownloadKernelObjectFromHostname
    simp only [str_find_host_port host port hhost, str_compare_host_port, str_substr_host_port]
    repeat' with_reducible first
      | apply sat_bind
      | apply sat_pure
      | apply sat_ite
      | apply sat_invoke
      | apply sat_emit
      | apply sat_CLOG
      | apply sat_query
      | apply Eff.sat.mk
      | intro _
    all_goals try simp only [List.filter_append, List.filterMap_append,
      DownloadKernelObjectFromURL_request_url, DownloadKernelObjectFromURL_no_connect_to]
    all_goals simp_all [Call.request_url, Call.isConnectTo, base_url_not_empty]
  have hrun := key.run h
  constructor
  · intro hne
    simpa [hne] using hrun
  · intro heq
    simpa [heq] using hrun

theorem DownloadKernelObjectFromHostname_server_name_witness :
    (DownloadKernelObjectFromHostname (sample_env all_succeed "2.3.0")
        (JsonValue.tls "ca.pem" "cert.pem" "key.pem") ("10.0.0.7" ++ ":" ++ "8443")
        "collector-ebpf-5.4.0.o" "2.3.0" []).2.filter (fun e => e.call.isConnectTo)
      = [⟨Call.SetConnectTo "sensor.stackrox" "10.0.0.7:8443", true⟩] ∧
    (DownloadKernelObjectFromHostname (sample_env all_succeed "2.3.0")
        (JsonValue.tls "ca.pem" "cert.pem" "key.pem") ("10.0.0.7" ++ ":" ++ "8443")
        "collector-ebpf-5.4.0.o" "2.3.0" []).2.filterMap (fun e => e.call.request_url)
      = ["https://sensor.stackrox:8443/kernel-objects/2.3.0/collector-ebpf-5.4.0.o.gz"] :=
  (DownloadKernelObjectFromHostname_server_name (sample_env all_succeed "2.3.0")
    (JsonValue.tls "ca.pem" "cert.pem" "key.pem") "10.0.0.7" "8443" "collector-ebpf-5.4.0.o"
    "2.3.0" [] (by decide) (by decide) rfl (fun _ => rfl) (fun _ => rfl) (fun _ => rfl)).1
    (by decide)

/-! ## Two runs that differ in the digest -/

theorem operations_append (candidate : DriverCandidate) (t₁ t₂ : Trace) :
    operations candidate (t₁ ++ t₂) = operations candidate t₁ ++ operations candidate t₂ := by
  simp [operations]

theorem operations_diagnostic (candidate : DriverCandidate) (t : Trace)
    (ht : ∀ e ∈ t, diagnostic candidate e.call = true) : operations candidate t = [] := by
  simp only [operations, List.filter_eq_nil_iff]
  intro e he
  simp [ht e he]

theorem agree_pure {α : Type} (candidate : DriverCandidate) (a : α) :
    Eff.agree candidate (pure a) (pure a) :=
  ⟨fun _ _ _ => ⟨rfl, rfl⟩⟩

theorem agree_bind_rel {α β : Type} (candidate : DriverCandidate) (m₁ m₂ : Eff α)
    (f₁ f₂ : α → Eff β) (R : α → α → Prop)
    (hm : ∀ h₁ h₂, operations candidate h₁ = operations candidate h₂ →
      R (m₁ h₁).1 (m₂ h₂).1 ∧
        operations candidate (m₁ h₁).2 = operations candidate (m₂ h₂).2)
    (hf : ∀ a b, R a b → Eff.agree candidate (f₁ a) (f₂ b)) :
    Eff.agree candidate (m₁ >>= f₁) (m₂ >>= f₂) := by
  constructor
  intro h₁ h₂ hh
  obtain ⟨hr, ho⟩ := hm h₁ h₂ hh
  have hk := (hf _ _ hr).run (h₁ ++ (m₁ h₁).2) (h₂ ++ (m₂ h₂).2)
    (by rw [operations_append, operations_append, hh, ho])
  rw [Eff_bind, Eff_bind]
  exact ⟨hk.1, by rw [operations_append, operations_append, ho, hk.2]⟩

theorem agree_bind {α β : Type} (candidate : DriverCandidate) (m₁ m₂ : Eff α)
    (f₁ f₂ : α → Eff β) (hm : Eff.agree candidate m₁ m₂)
    (hf : ∀ a, Eff.agree candidate (f₁ a) (f₂ a)) :
    Eff.agree candidate (m₁ >>= f₁) (m₂ >>= f₂) :=
  agree_bind_rel candidate m₁ m₂ f₁ f₂ (fun a b => a = b) hm.run (fun a _ hab => hab ▸ hf a)

theorem agree_ite {α : Type} (candidate : DriverCandidate) (c : Prop) [Decidable c]
    (a₁ b₁ a₂ b₂ : Eff α) (ha : c → Eff.agree candidate a₁ a₂)
    (hb : ¬c → Eff.agree candidate b₁ b₂) :
    Eff.agree candidate (if c then a₁ else b₁) (if c then a₂ else b₂) := by
  split
  · exact ha ‹_›
  · exact hb ‹_›

theorem agree_bind_invoke {β : Type} (candidate : DriverCandidate) (env₁ env₂ : Env)
    (hres : Env.same_outcomes candidate env₁ env₂) (c : Call) (f₁ f₂ : Bool → Eff β)
    (hf : ∀ r, Eff.agree candidate (f₁ r) (f₂ r)) (hc : diagnostic candidate c = false) :
    Eff.agree candidate (invoke env₁ c >>= f₁) (invoke env₂ c >>= f₂) :=
  agree_bind candidate _ _ f₁ f₂
    ⟨fun h₁ h₂ hh => by
      have hr := hres h₁ h₂ c hh hc
      simp only [invoke, hr, and_self]⟩ hf

theorem agree_bind_emit {β : Type} (candidate : DriverCandidate) (c : Call)
    (f₁ f₂ : Unit → Eff β) (hf : Eff.agree candidate (f₁ ()) (f₂ ())) :
    Eff.agree candidate (emit c >>= f₁) (emit c >>= f₂) :=
  agree_bind candidate _ _ f₁ f₂ ⟨fun _ _ _ => ⟨rfl, rfl⟩⟩ (fun _ => hf)

theorem agree_bind_CLOG {β : Type} (candidate : DriverCandidate) (level₁ level₂ : LogLevel)
    (msg₁ msg₂ : String) (f₁ f₂ : Unit → Eff β) (hf : Eff.agree candidate (f₁ ()) (f₂ ())) :
    Eff.agree candidate (CLOG level₁ msg₁ >>= f₁) (CLOG level₂ msg₂ >>= f₂) :=
  agree_bind candidate _ _ f₁ f₂ ⟨fun _ _ _ => ⟨rfl, rfl⟩⟩ (fun _ => hf)

theorem agree_bind_query_same {β : Type} (candidate : DriverCandidate) (c : Call)
    (answer : String) (f₁ f₂ : String → Eff β)
    (hf : Eff.agree candidate (f₁ answer) (f₂ answer)) :
    Eff.agree candidate (query c (fun _ => answer) >>= f₁) (query c (fun _ => answer) >>= f₂) :=
  agree_bind_rel candidate _ _ f₁ f₂ (fun a b => a = answer ∧ b = answer)
    (fun _ _ _ => ⟨⟨rfl, rfl⟩, rfl⟩) (fun _ _ hab => hab.1 ▸ hab.2 ▸ hf)

theorem agree_bind_pure {α β : Type} (candidate : DriverCandidate) (a : α)
    (f₁ f₂ : α → Eff β) (hf : Eff.agree candidate (f₁ a) (f₂ a)) :
    Eff.agree candidate (pure a >>= f₁) (pure a >>= f₂) :=
  agree_bind_rel candidate _ _ f₁ f₂ (fun x y => x = a ∧ y = a)
    (fun _ _ _ => ⟨⟨rfl, rfl⟩, rfl⟩) (fun _ _ hab => hab.1 ▸ hab.2 ▸ hf)

theorem agree_bind_query_any {β : Type} (candidate : DriverCandidate) (c : Call)
    (answer₁ answer₂ : Trace → String) (f₁ f₂ : String → Eff β)
    (hf : ∀ s₁ s₂, Eff.agree candidate (f₁ s₁) (f₂ s₂)) :
    Eff.agree candidate (query c answer₁ >>= f₁) (query c answer₂ >>= f₂) :=
  agree_bind_rel candidate _ _ f₁ f₂ (fun _ _ => True) (fun _ _ _ => ⟨trivial, rfl⟩)
    (fun a b _ => hf a b)

theorem agree_bind_StrError {β : Type} (candidate : DriverCandidate)
    (answer₁ answer₂ : Trace → String) (f₁ f₂ : String → Eff β)
    (hf : ∀ s₁ s₂, Eff.agree candidate (f₁ s₁) (f₂ s₂)) :
    Eff.agree candidate ((fun h => (answer₁ h, []) : Eff String) >>= f₁)
      ((fun h => (answer₂ h, []) : Eff String) >>= f₂) :=
  agree_bind_rel candidate _ _ f₁ f₂ (fun _ _ => True) (fun _ _ _ => ⟨trivial, rfl⟩)
    (fun a b _ => hf a b)

theorem hash_file_operations (candidate : DriverCandidate) (env : Env) (driver : String)
    (h : Trace) :
    operations candidate (Sha256HashFile env driver h).2
      = operations candidate [⟨Call.ifstream_open driver, env.result h (Call.ifstream_open driver)⟩] := by
  have hl := hash_loop_events driver (env.reads driver) []
  simp only [Sha256HashFile, Sha256HashStream, Eff_bind, Eff_pure, Eff_ite, invoke, emit, CLOG,
    apply_ite Prod.fst, apply_ite Prod.snd, List.append_nil, List.nil_append,
    Bool.not_eq_true']
  split_ifs
  · rw [operations_append]
    simp [operations, diagnostic]
  · rw [operations_append, operations_diagnostic candidate
      (Sha256HashStream_loop driver (env.reads driver) [] _).2, List.append_nil]
    intro e he
    rcases hl _ e he with h1 | h1 <;> simp [h1, diagnostic]

theorem agree_bind_hash {β : Type} (candidate : DriverCandidate) (env₁ env₂ : Env)
    (hres : Env.same_outcomes candidate env₁ env₂) (driver : String) (f₁ f₂ : String → Eff β)
    (hf : ∀ s₁ s₂, Eff.agree candidate (f₁ s₁) (f₂ s₂)) :
    Eff.agree candidate (Sha256HashFile env₁ driver >>= f₁) (Sha256HashFile env₂ driver >>= f₂) :=
  agree_bind_rel candidate _ _ f₁ f₂ (fun _ _ => True)
    (fun h₁ h₂ hh => by
      refine ⟨trivial, ?_⟩
      rw [hash_file_operations, hash_file_operations]
      cases hd : diagnostic candidate (Call.ifstream_open driver) with
      | true => simp [operations, hd]
      | false => rw [hres h₁ h₂ _ hh hd])
    (fun a b _ => hf a b)

theorem DownloadKernelObjectFromURL_agree (candidate : DriverCandidate) (env₁ env₂ : Env)
    (hset : Env.same_settings env₁ env₂) (hres : Env.same_outcomes candidate env₁ env₂)
    (base_url kernel_module module_version : String) :
    Eff.agree candidate (DownloadKernelObjectFromURL env₁ base_url kernel_module module_version)
      (DownloadKernelObjectFromURL env₂ base_url kernel_module module_version) := by
  obtain ⟨-, -, hcid, -, -, -⟩ := hset
  unfold DownloadKernelObjectFromURL
  dsimp only
  simp only [← hcid]
  repeat' with_reducible first
    | apply agree_pure
    | apply agree_ite
    | apply agree_bind_invoke _ _ _ hres
    | apply agree_bind_pure
    | apply agree_bind_emit
    | apply agree_bind_CLOG
    | apply agree_bind_query_same
    | apply agree_bind_query_any
    | intro _
  all_goals rfl

theorem DownloadKernelObjectFromHostname_agree (candidate : DriverCandidate) (env₁ env₂ : Env)
    (hset : Env.same_settings env₁ env₂) (hres : Env.same_outcomes candidate env₁ env₂)
    (tls_config : JsonValue) (hostname kernel_module module_version : String) :
    Eff.agree candidate
      (DownloadKernelObjectFromHostname env₁ tls_config hostname kernel_module module_version)
      (DownloadKernelObjectFromHostname env₂ tls_config hostname kernel_module module_version) := by
  have hsni := hset.2.2.2.2.1
  unfold DownloadKernelObjectFromHostname
  cases str_find hostname ':' with
  | none =>
    dsimp only
    repeat' with_reducible first
      | apply agree_pure
      | apply agree_bind_CLOG
  | some port_offset =>
    dsimp only
    simp only [← hsni]
    repeat' with_reducible first
      | apply agree_pure
      | apply agree_ite
      | apply DownloadKernelObjectFromURL_agree _ _ _ hset hres
      | apply agree_bind_invoke _ _ _ hres
      | apply agree_bind_pure
      | apply agree_bind_emit
      | apply agree_bind_CLOG
      | apply agree_bind_query_same
      | apply agree_bind_query_any
      | intro _
    all_goals rfl

theorem DownloadKernelObject_agree (candidate : DriverCandidate) (env₁ env₂ : Env)
    (hset : Env.same_settings env₁ env₂) (hres : Env.same_outcomes candidate env₁ env₂)
    (hostname : String) (tls_config : JsonValue) (kernel_module compressed_module_path : String)
    (verbose : Bool) :
    Eff.agree candidate
      (DownloadKernelObject env₁ hostname tls_config kernel_module compressed_module_path verbose)
      (DownloadKernelObject env₂ hostname tls_config kernel_module compressed_module_path
        verbose) := by
  have hver := hset.2.2.2.1
  have hbase := hset.2.2.2.2.2
  unfold DownloadKernelObject
  dsimp only
  simp only [← hver, ← hbase]
  repeat' with_reducible first
    | apply agree_pure
    | apply agree_ite
    | apply DownloadKernelObjectFromURL_agree _ _ _ hset hres
    | apply agree_bind _ _ _ _ _ (DownloadKernelObjectFromURL_agree _ _ _ hset hres _ _ _)
    | apply agree_bind _ _ _ _ _ (DownloadKernelObjectFromHostname_agree _ _ _ hset hres _ _ _ _)
    | apply agree_bind_invoke _ _ _ hres
    | apply agree_bind_pure
    | apply agree_bind_emit
    | apply agree_bind_CLOG
    | apply agree_bind_query_same
    | apply agree_bind_query_any
    | intro _
  all_goals rfl

theorem GetKernelObject_agree (env₁ env₂ : Env) (hostname : String) (tls_config : JsonValue)
    (candidate : DriverCandidate) (verbose : Bool)
    (hset : Env.same_settings env₁ env₂) (hres : Env.same_outcomes candidate env₁ env₂) :
    Eff.agree candidate (GetKernelObject env₁ hostname tls_config candidate verbose)
      (GetKernelObject env₂ hostname tls_config candidate verbose) := by
  have hprobe := hset.1
  have hmod := hset.2.1
  unfold GetKernelObject
  dsimp only
  simp only [← hprobe, ← hmod]
  repeat' with_reducible first
    | apply agree_pure
    | apply agree_ite
    | apply agree_bind _ _ _ _ _ (DownloadKernelObject_agree _ _ _ hset hres _ _ _ _ _)
    | apply agree_bind_hash _ _ _ hres
    | apply agree_bind_invoke _ _ _ hres
    | apply agree_bind_pure
    | apply agree_bind_emit
    | apply agree_bind_CLOG
    | apply agree_bind_StrError
    | intro _
  all_goals first
    | rfl
    | simp [diagnostic, expected_path]

theorem sample_same_outcomes (method : CollectionMethod) (downloadable : Bool)
    (version : String) :
    Env.same_outcomes (sample_candidate method downloadable) (sample_env all_succeed version)
      (unreadable_env version) := by
  intro t₁ t₂ c _ hc
  have hp : expected_path (sample_candidate method downloadable)
      = "/kernel-modules/collector-ebpf-5.4.0.o" := by
    simp only [expected_path, sample_candidate]
    decide
  cases c <;> first
    | rfl
    | (simp only [diagnostic, hp, decide_eq_false_iff_not, not_not] at hc
       simp [unreadable_env, sample_env, all_succeed, hashing_fails, hc])

theorem sample_digests_differ :
    (Sha256HashFile (sample_env all_succeed "2.3.0") "/kernel-modules/collector-ebpf-5.4.0.o.gz"
        []).1
      ≠ (Sha256HashFile (unreadable_env "2.3.0") "/kernel-modules/collector-ebpf-5.4.0.o.gz"
        []).1 := by
  decide

/-- Claim C13.  Take two environments with the same settings, in which every
call that is not diagnostic has the same outcome whenever the histories hold
the same operations; the contents of the files, the digest function, the
outcome of opening a file to hash it, the effective URL and the error text are
free, so that `Sha256HashFile` may return any two strings in the two runs, the
empty string of a failed open or read included.  Started after histories with
the same operations, the two runs of `GetKernelObject` return the same Boolean
and issue the same sequence of operations: the same file-system and downloader
calls with the same outcomes in the same order, the log lines and the reads
and opens of the hash computation being left out. -/
theorem GetKernelObject_digest_never_gates (env₁ env₂ : Env) (hostname : String)
    (tls_config : JsonValue) (candidate : DriverCandidate) (verbose : Bool) (h₁ h₂ : Trace)
    (hset : Env.same_settings env₁ env₂) (hres : Env.same_outcomes candidate env₁ env₂)
    (hh : operations candidate h₁ = operations candidate h₂) :
    (GetKernelObject env₁ hostname tls_config candidate verbose h₁).1
        = (GetKernelObject env₂ hostname tls_config candidate verbose h₂).1 ∧
      operations candidate (GetKernelObject env₁ hostname tls_config candidate verbose h₁).2
        = operations candidate (GetKernelObject env₂ hostname tls_config candidate verbose h₂).2 :=
  (GetKernelObject_agree env₁ env₂ hostname tls_config candidate verbose hset hres).run h₁ h₂ hh

theorem GetKernelObject_digest_never_gates_witness :
    (GetKernelObject (sample_env all_succeed "2.3.0") "sensor.stackrox:443"
        (JsonValue.tls "ca.pem" "cert.pem" "key.pem")
        (sample_candidate CollectionMethod.EBPF true) false []).1
      = (GetKernelObject (unreadable_env "2.3.0") "sensor.stackrox:443"
        (JsonValue.tls "ca.pem" "cert.pem" "key.pem")
        (sample_candidate CollectionMethod.EBPF true) false []).1 ∧
    operations (sample_candidate CollectionMethod.EBPF true)
        (GetKernelObject (sample_env all_succeed "2.3.0") "sensor.stackrox:443"
          (JsonValue.tls "ca.pem" "cert.pem" "key.pem")
          (sample_candidate CollectionMethod.EBPF true) false []).2
      = operations (sample_candidate CollectionMethod.EBPF true)
        (GetKernelObject (unreadable_env "2.3.0") "sensor.stackrox:443"
          (JsonValue.tls "ca.pem" "cert.pem" "key.pem")
          (sample_candidate CollectionMethod.EBPF true) false []).2 :=
  GetKernelObject_digest_never_gates (sample_env all_succeed "2.3.0") (unreadable_env "2.3.0")
    "sensor.stackrox:443" (JsonValue.tls "ca.pem" "cert.pem" "key.pem")
    (sample_candidate CollectionMethod.EBPF true) false [] []
    ⟨rfl, rfl, rfl, rfl, rfl, rfl⟩ (sample_same_outcomes CollectionMethod.EBPF true "2.3.0") rfl

end collector
